import Mathlib

/-!
# geo-service: geometry value model, codec, validation and service orchestration

A shallow embedding of `internal/models/geometry.go`,
`internal/service/geometry.go`, the lookups of `internal/repository` and the
handlers and pagination helpers of `internal/handler/geometry.go`, with the
properties proved about them.

Modelling conventions.

* `float64` is `F64`: NaN, the two infinities, or a finite value given by the
  rational number it denotes (every finite float64 is a rational; the two zeros
  compare equal in Go and are identified).  The code only compares coordinates.
* A Go slice is `Slice α`: the nil slice or a (possibly empty) list of elements.
* A Go string is a `String`.
* A Go `error` result is `Option Err`, `none` being the nil error.
* Indexing is fallible: an out-of-range index is the run-time panic
  `Panic.indexOutOfRange`.
* A method taking a record by pointer returns the record next to its result.
* A repository is an interface: its methods are arbitrary functions of a store
  state, and every call the service makes is recorded in `World.calls`.
* JSON text is represented by the JSON value it denotes; what `encoding/json`
  does with such a value for each target type is defined below.
* The `*gorm.DB` handle is `DB σ`: its operations are arbitrary functions of the
  store state; `tableDB` is one such handle, used for the examples.
* A handler returns the status code and body it writes; what gin binds from
  the request body is an input of the handler.
* An `int` is an `Int`; arithmetic on it goes through `wrapInt` (64 bits).
-/

namespace GeoService

/-! ## float64 -/

/-- A float64 value: NaN, minus or plus infinity, or a finite number. -/
inductive F64 where
  | nan
  | negInf
  | posInf
  | fin (q : ℚ)
deriving DecidableEq

namespace F64

/-- Go's `<` on float64: false as soon as one operand is NaN. -/
def lt : F64 → F64 → Bool
  | nan, _ => false
  | _, nan => false
  | _, negInf => false
  | negInf, _ => true
  | posInf, _ => false
  | fin _, posInf => true
  | fin a, fin b => decide (a < b)

/-- Go's `>` on float64. -/
def gt (a b : F64) : Bool := lt b a

/-- Go's `==` on float64: NaN is not equal to anything, itself included. -/
def eq : F64 → F64 → Bool
  | nan, _ => false
  | _, nan => false
  | negInf, negInf => true
  | posInf, posInf => true
  | fin a, fin b => decide (a = b)
  | _, _ => false

/-- Go's `!=` on float64. -/
def ne (a b : F64) : Bool := !(eq a b)

/-- Go's `<=` on float64. -/
def le (a b : F64) : Bool := lt a b || eq a b

/-- The float64 value of an integer constant of the source. -/
def ofInt (n : Int) : F64 := fin n

/-- True when the value is NaN. -/
def isNaN : F64 → Bool
  | nan => true
  | _ => false

/-- True when the value is neither NaN nor an infinity. -/
def isFinite : F64 → Bool
  | fin _ => true
  | _ => false

end F64

/-- A coordinate entry `[2]float64`: index 0 is the longitude, index 1 the latitude. -/
abbrev Coord := F64 × F64

/-- Go's `!=` on `[2]float64`: some component differs. -/
def Coord.ne (a b : Coord) : Bool := F64.ne a.1 b.1 || F64.ne a.2 b.2

/-! ## Slices, panics, errors -/

/-- A Go slice value: nil, or a backing sequence of elements (possibly of length 0). -/
inductive Slice (α : Type) where
  | nil
  | mk (elems : List α)
deriving DecidableEq

namespace Slice

/-- The elements a `range` loop visits. -/
def toList {α : Type} : Slice α → List α
  | nil => []
  | mk xs => xs

/-- Go's `len`. -/
def len {α : Type} (s : Slice α) : Nat := s.toList.length

end Slice

/-- Run-time panics the modelled code could raise. -/
inductive Panic where
  | indexOutOfRange (index length : Nat)
deriving DecidableEq

/-- Indexing `s[i]`, panicking when `i` is out of range. -/
def Slice.index {α : Type} (s : Slice α) (i : Nat) : Except Panic α :=
  match s.toList.get? i with
  | some x => .ok x
  | none => .error (.indexOutOfRange i s.len)

/-- Error values: those of `internal/constants/errors.go`, the error kinds of
`encoding/json`, the errors a store may report, and the two errors of `strconv`. -/
inductive Err where
  | ErrNotFound
  | ErrInternal
  | ErrInvalidPoint
  | ErrCoordinatesOutOfRange
  | ErrInvalidGeometryType
  | ErrUnsupportedScan
  | ErrInvalidContours
  | ErrContourNotFound
  | jsonSyntax
  | jsonUnmarshalType
  | jsonUnsupportedValue
  | gormRecordNotFound
  | store (msg : String)
  | strconvSyntax
  | strconvRange
deriving DecidableEq

/-! ## Geometry -/

/-- The `Type` constants of the model package. -/
def PointType : String := "Point"
/-- The `Type` constant for polygons. -/
def PolygonType : String := "Polygon"
/-- The `Type` constant for multi-polygons. -/
def MultiPolygon : String := "MultiPolygon"

/-- A ring: `[][2]float64`. -/
abbrev Ring := Slice Coord
/-- A polygon payload: `[][][2]float64`. -/
abbrev Rings := Slice Ring

/-- The `Geometry` struct.  `Typ` is the field `Type` (a reserved word here). -/
structure Geometry where
  Typ : String
  PointCoordinates : Coord
  PolygonCoordinates : Rings
  MultiPolygonCoordinates : Slice Rings
deriving DecidableEq

namespace Geometry

/-- Method `IsPoint` of `Geometry`. -/
def IsPoint (g : Geometry) : Bool := g.Typ == PointType

/-- Method `IsPolygon` of `Geometry`. -/
def IsPolygon (g : Geometry) : Bool := g.Typ == PolygonType

/-- Method `IsMultiPolygon` of `Geometry`. -/
def IsMultiPolygon (g : Geometry) : Bool := g.Typ == MultiPolygon

/-- The bounds test both validators apply to one coordinate entry
(`c[0] < -180 || c[0] > 180 || c[1] < -90 || c[1] > 90`). -/
def coordOutOfRange (c : Coord) : Bool :=
  F64.lt c.1 (F64.ofInt (-180)) || F64.gt c.1 (F64.ofInt 180) ||
    F64.lt c.2 (F64.ofInt (-90)) || F64.gt c.2 (F64.ofInt 90)

/-- Method `validatePoint` of `Geometry`. -/
def validatePoint (g : Geometry) : Option Err :=
  if coordOutOfRange g.PointCoordinates then some .ErrCoordinatesOutOfRange else none

/-- The inner loop of `validatePolygon` over the entries of one ring. -/
def validateCoords : List Coord → Option Err
  | [] => none
  | coord :: rest =>
    if coordOutOfRange coord then some .ErrCoordinatesOutOfRange else validateCoords rest

/-- The outer loop of `validatePolygon` over the rings still to visit. -/
def validateRings : List Ring → Except Panic (Option Err)
  | [] => .ok none
  | coords :: rest =>
    if coords.len < 2 then .ok (some .ErrInvalidContours)
    else do
      let first ← coords.index 0
      let last ← coords.index (coords.len - 1)
      if Coord.ne first last then .ok (some .ErrInvalidContours)
      else
        match validateCoords coords.toList with
        | some e => .ok (some e)
        | none => validateRings rest

/-- Method `validatePolygon` of `Geometry`: the ring loop over the polygon payload. -/
def validatePolygon (g : Geometry) : Except Panic (Option Err) :=
  validateRings g.PolygonCoordinates.toList

/-- Method `Validate` of `Geometry`. -/
def Validate (g : Geometry) : Except Panic (Option Err) :=
  if g.IsPoint then .ok g.validatePoint
  else if g.IsPolygon then g.validatePolygon
  else .ok (some .ErrInvalidGeometryType)

end Geometry

/-! ## JSON values and the `encoding/json` operations the codec uses

JSON text is represented by the value it denotes.  A number literal is given by
the float64 it parses to (`strconv` formats a finite float64 so that it parses
back to itself), or marked as too large for float64. -/

/-- A JSON value. -/
inductive Json where
  | null
  | bool (b : Bool)
  | num (q : ℚ)
  | bigNum (literal : String)
  | str (s : String)
  | arr (elems : List Json)
  | obj (members : List (String × Json))

mutual
/-- The compact text of a JSON value as `json.Marshal` writes it, given the
string quoting and the float formatting of the library. -/
def Json.render (quote : String → String) (fmtNum : ℚ → String) : Json → String
  | .null => "null"
  | .bool b => if b then "true" else "false"
  | .num q => fmtNum q
  | .bigNum literal => literal
  | .str s => quote s
  | .arr xs => "[" ++ Json.renderElems quote fmtNum xs ++ "]"
  | .obj ms => "\x7b" ++ Json.renderMembers quote fmtNum ms ++ "\x7d"
/-- The elements of an array, separated by commas. -/
def Json.renderElems (quote : String → String) (fmtNum : ℚ → String) : List Json → String
  | [] => ""
  | [x] => Json.render quote fmtNum x
  | x :: y :: xs =>
    Json.render quote fmtNum x ++ "," ++ Json.renderElems quote fmtNum (y :: xs)
/-- The members of an object, separated by commas. -/
def Json.renderMembers (quote : String → String) (fmtNum : ℚ → String) :
    List (String × Json) → String
  | [] => ""
  | [(k, v)] => quote k ++ ":" ++ Json.render quote fmtNum v
  | (k, v) :: m :: ms =>
    quote k ++ ":" ++ Json.render quote fmtNum v ++ "," ++
      Json.renderMembers quote fmtNum (m :: ms)
end

/-- The bytes given to `json.Unmarshal`, by what they parse to: `none` when they
are not one valid JSON value (empty or absent input included). -/
abbrev JsonText := Option Json

/-- The `map[string]json.RawMessage` filled from an object: its members in
source order; a later member replaces an earlier one with the same key. -/
abbrev RawMap := List (String × Json)

/-- The map read `raw[key]`: the bytes stored under the key, `none` (a nil message) when absent. -/
def RawMap.lookup (raw : RawMap) (key : String) : JsonText :=
  (raw.reverse.find? (fun m => m.1 == key)).map (fun m => m.2)

/-- The call `json.Unmarshal(data, &raw)` for a nil `map[string]json.RawMessage`. -/
def unmarshalRawMap : JsonText → Except Err RawMap
  | none => .error .jsonSyntax
  | some .null => .ok []
  | some (.obj ms) => .ok ms
  | some _ => .error .jsonUnmarshalType

/-- The call `json.Unmarshal(data, &s)` for a string-kinded target holding `cur`. -/
def unmarshalString (cur : String) : JsonText → Except Err String
  | none => .error .jsonSyntax
  | some (.str s) => .ok s
  | some .null => .ok cur
  | some _ => .error .jsonUnmarshalType

/-- Decoding one JSON value into a float64 holding `cur`. -/
def unmarshalFloat (cur : F64) : Json → Except Err F64
  | .num q => .ok (.fin q)
  | .null => .ok cur
  | _ => .error .jsonUnmarshalType

/-- The zero `[2]float64`. -/
def zeroCoord : Coord := (F64.ofInt 0, F64.ofInt 0)

/-- Decoding one JSON value into a `[2]float64` holding `cur`: elements past the
second are skipped, missing ones are zeroed. -/
def unmarshalCoordValue (cur : Coord) : Json → Except Err Coord
  | .null => .ok cur
  | .arr elems => do
    let x ← match elems.get? 0 with
      | some j => unmarshalFloat cur.1 j
      | none => .ok (F64.ofInt 0)
    let y ← match elems.get? 1 with
      | some j => unmarshalFloat cur.2 j
      | none => .ok (F64.ofInt 0)
    .ok (x, y)
  | _ => .error .jsonUnmarshalType

/-- Decoding the elements of a JSON array into the elements of a slice: element
`i` is decoded into the `i`-th current element, or into a zero element past the
current length. -/
def unmarshalElems {α : Type} (zero : α) (elem : α → Json → Except Err α) :
    List α → List Json → Except Err (List α)
  | _, [] => .ok []
  | cur, j :: js => do
    let x ← elem (cur.headD zero) j
    let xs ← unmarshalElems zero elem cur.tail js
    .ok (x :: xs)

/-- Decoding one JSON value into a slice holding `cur`: null gives the nil slice,
an array a non-nil slice of its decoded elements. -/
def unmarshalSliceValue {α : Type} (zero : α) (elem : α → Json → Except Err α)
    (cur : Slice α) : Json → Except Err (Slice α)
  | .null => .ok .nil
  | .arr elems => do
    let xs ← unmarshalElems zero elem cur.toList elems
    .ok (.mk xs)
  | _ => .error .jsonUnmarshalType

/-- Decoding one JSON value into a `[][2]float64`. -/
def unmarshalRingValue : Ring → Json → Except Err Ring :=
  unmarshalSliceValue zeroCoord unmarshalCoordValue

/-- Decoding one JSON value into a `[][][2]float64`. -/
def unmarshalRingsValue : Rings → Json → Except Err Rings :=
  unmarshalSliceValue .nil unmarshalRingValue

/-- Decoding one JSON value into a `[][][][2]float64`. -/
def unmarshalMultiValue : Slice Rings → Json → Except Err (Slice Rings) :=
  unmarshalSliceValue .nil unmarshalRingsValue

/-- The call `json.Unmarshal(data, &v)`: a syntax error unless the bytes are one JSON
value, which is then decoded into `v`. -/
def unmarshalInto {α : Type} (value : α → Json → Except Err α) (cur : α) :
    JsonText → Except Err α
  | none => .error .jsonSyntax
  | some j => value cur j

/-- Encoding a float64: NaN and the infinities are unsupported values. -/
def marshalFloat : F64 → Except Err Json
  | .fin q => .ok (.num q)
  | _ => .error .jsonUnsupportedValue

/-- Encoding a `[2]float64`. -/
def marshalCoord (c : Coord) : Except Err Json := do
  let x ← marshalFloat c.1
  let y ← marshalFloat c.2
  .ok (.arr [x, y])

/-- Encoding the elements of a slice in order, stopping at the first error. -/
def marshalElems {α : Type} (elem : α → Except Err Json) : List α → Except Err (List Json)
  | [] => .ok []
  | x :: xs => do
    let j ← elem x
    let js ← marshalElems elem xs
    .ok (j :: js)

/-- Encoding a slice: null for the nil slice, else the array of its elements. -/
def marshalSlice {α : Type} (elem : α → Except Err Json) : Slice α → Except Err Json
  | .nil => .ok .null
  | .mk xs => do
    let js ← marshalElems elem xs
    .ok (.arr js)

/-- Encoding a `[][2]float64`. -/
def marshalRing : Ring → Except Err Json := marshalSlice marshalCoord

/-- Encoding a `[][][2]float64`. -/
def marshalRings : Rings → Except Err Json := marshalSlice marshalRing

/-- Encoding a `[][][][2]float64`. -/
def marshalMulti : Slice Rings → Except Err Json := marshalSlice marshalRings

namespace Geometry

/-- The zero `Geometry` (a fresh value). -/
def zero : Geometry := ⟨"", zeroCoord, .nil, .nil⟩

/-- Method `MarshalJSON` of `Geometry`: the value written, or the library's error. -/
def MarshalJSON (g : Geometry) : Except Err Json := do
  let coordinates ←
    if g.Typ = PointType then marshalCoord g.PointCoordinates
    else if g.Typ = PolygonType then marshalRings g.PolygonCoordinates
    else if g.Typ = MultiPolygon then marshalMulti g.MultiPolygonCoordinates
    else .ok .null
  .ok (.obj [("type", .str g.Typ), ("coordinates", coordinates)])

/-- Method `UnmarshalJSON` on the receiver `g`: the receiver after a successful decode,
or the first error. -/
def UnmarshalJSON (g : Geometry) (data : JsonText) : Except Err Geometry := do
  let raw ← unmarshalRawMap data
  let typ ← unmarshalString g.Typ (raw.lookup "type")
  let g := { g with Typ := typ }
  let g ←
    if g.IsPoint then do
      let c ← unmarshalInto unmarshalCoordValue g.PointCoordinates (raw.lookup "coordinates")
      pure { g with PointCoordinates := c }
    else pure g
  let g ←
    if g.IsPolygon then do
      let c ← unmarshalInto unmarshalRingsValue g.PolygonCoordinates (raw.lookup "coordinates")
      pure { g with PolygonCoordinates := c }
    else pure g
  let g ←
    if g.IsMultiPolygon then do
      let c ← unmarshalInto unmarshalMultiValue g.MultiPolygonCoordinates
        (raw.lookup "coordinates")
      pure { g with MultiPolygonCoordinates := c }
    else pure g
  pure g

end Geometry

/-! ## Entities, repositories and the service -/

/-- The `Point` record. -/
structure Point where
  ID : Nat
  Data : Geometry
deriving DecidableEq

/-- The `Contour` record. -/
structure Contour where
  ID : Nat
  Data : Geometry
deriving DecidableEq

/-- One invocation of a repository method, with its arguments. -/
inductive RepoCall where
  | CreatePoint (point : Point)
  | GetPointByID (id : Nat)
  | GetPointsByContourID (contourID : Nat)
  | GetPoints (offset limit : Int)
  | CreateContour (contour : Contour)
  | GetContourByID (id : Nat)
  | GetContours (offset limit : Int)
  | UpdateContour (contour : Contour)
  | DeleteContour (id : Nat)
  | GetContoursIntersectArea (idA idB : Nat)
deriving DecidableEq

/-- The `PointRepository` methods the service calls, over a store state `σ`.  A
method taking a pointer also returns the record as the store left it. -/
structure PointRepository (σ : Type) where
  CreatePoint : Point → σ → (Point × Option Err) × σ
  GetPointByID : Nat → σ → (Option Point × Option Err) × σ
  GetPointsByContourID : Nat → σ → (Slice Point × Option Err) × σ
  GetPoints : Int → Int → σ → (Slice Point × Option Err) × σ

/-- The `ContourRepository` interface, over a store state `σ`. -/
structure ContourRepository (σ : Type) where
  CreateContour : Contour → σ → (Contour × Option Err) × σ
  GetContourByID : Nat → σ → (Option Contour × Option Err) × σ
  GetContours : Int → Int → σ → (Slice Contour × Option Err) × σ
  UpdateContour : Contour → σ → (Contour × Option Err) × σ
  DeleteContour : Nat → σ → Option Err × σ
  GetContoursIntersectArea : Nat → Nat → σ → (Slice Contour × Option Err) × σ

/-- The store together with the record of the repository calls made so far. -/
structure World (σ : Type) where
  store : σ
  calls : List RepoCall

/-- Running one repository method: its effect on the store, and the call recorded. -/
def World.invoke {σ α : Type} (w : World σ) (call : RepoCall) (method : σ → α × σ) :
    α × World σ :=
  ((method w.store).1, ⟨(method w.store).2, w.calls ++ [call]⟩)

/-- The `GeometryServiceImpl` struct. -/
structure GeometryServiceImpl (σ : Type) where
  pointRepo : PointRepository σ
  contourRepo : ContourRepository σ

namespace GeometryServiceImpl

variable {σ : Type}

/-- Method `IsValidPoint` of the service. -/
def IsValidPoint (_s : GeometryServiceImpl σ) (point : Point) : Except Panic Bool := do
  let err ← point.Data.Validate
  pure err.isNone

/-- Method `CreatePoint` of the service: the error returned, with the record as the call left it. -/
def CreatePoint (s : GeometryServiceImpl σ) (point : Point) (w : World σ) :
    Except Panic ((Point × Option Err) × World σ) := do
  if !(← s.IsValidPoint point) then
    pure ((point, some .ErrInvalidPoint), w)
  else
    pure (w.invoke (.CreatePoint point) (s.pointRepo.CreatePoint point))

/-- Method `IsValidContour` of the service. -/
def IsValidContour (_s : GeometryServiceImpl σ) (contour : Contour) : Except Panic Bool := do
  let err ← contour.Data.Validate
  pure err.isNone

/-- Method `CreateContour` of the service. -/
def CreateContour (s : GeometryServiceImpl σ) (contour : Contour) (w : World σ) :
    Except Panic ((Contour × Option Err) × World σ) := do
  if !(← s.IsValidContour contour) then
    pure ((contour, some .ErrInvalidContours), w)
  else
    pure (w.invoke (.CreateContour contour) (s.contourRepo.CreateContour contour))

/-- Method `UpdateContour` of the service. -/
def UpdateContour (s : GeometryServiceImpl σ) (contour : Contour) (w : World σ) :
    Except Panic ((Contour × Option Err) × World σ) := do
  if !(← s.IsValidContour contour) then
    pure ((contour, some .ErrInvalidContours), w)
  else
    pure (w.invoke (.UpdateContour contour) (s.contourRepo.UpdateContour contour))

/-- The inner loop of `GetContoursIntersectArea` over the polygons of one
multi-polygon row, appending to `resutls`. -/
def appendPolygons (resutls : List Contour) : List Rings → List Contour
  | [] => resutls
  | p :: rest =>
    appendPolygons (resutls ++ [⟨0, ⟨"Polygon", zeroCoord, p, .nil⟩⟩]) rest

/-- The loop of `GetContoursIntersectArea` over the rows still to visit. -/
def appendRows (resutls : List Contour) : List Contour → List Contour
  | [] => resutls
  | c :: rest =>
    let resutls :=
      if c.Data.IsPolygon && c.Data.PolygonCoordinates.len != 0 then resutls ++ [c]
      else resutls
    let resutls :=
      if c.Data.IsMultiPolygon then
        appendPolygons resutls c.Data.MultiPolygonCoordinates.toList
      else resutls
    appendRows resutls rest

/-- Method `GetContoursIntersectArea` of the service: the two lookups, the
query, then the loop over its rows. -/
def GetContoursIntersectArea (s : GeometryServiceImpl σ) (contourIDA contourIDB : Nat)
    (w : World σ) : (Slice Contour × Option Err) × World σ :=
  let ra := w.invoke (.GetContourByID contourIDA) (s.contourRepo.GetContourByID contourIDA)
  if ra.1.2.isSome then ((.nil, ra.1.2), ra.2)
  else
    let rb := ra.2.invoke (.GetContourByID contourIDB)
      (s.contourRepo.GetContourByID contourIDB)
    if rb.1.2.isSome then ((.nil, rb.1.2), rb.2)
    else
      let rq := rb.2.invoke (.GetContoursIntersectArea contourIDA contourIDB)
        (s.contourRepo.GetContoursIntersectArea contourIDA contourIDB)
      if rq.1.2.isSome then ((.nil, rq.1.2), rq.2)
      else ((.mk (appendRows [] rq.1.1.toList), none), rq.2)

end GeometryServiceImpl

/-! ## Predicates and concrete inputs used in the statements -/

/-- The box of valid positions: `-180 <= lon <= 180` and `-90 <= lat <= 90`,
with the comparisons of float64. -/
def inBox (c : Coord) : Bool :=
  F64.le (F64.ofInt (-180)) c.1 && F64.le c.1 (F64.ofInt 180) &&
    F64.le (F64.ofInt (-90)) c.2 && F64.le c.2 (F64.ofInt 90)

/-- A Point whose longitude is NaN. -/
def nanPoint : Geometry := ⟨PointType, (F64.nan, F64.ofInt 0), .nil, .nil⟩

/-- The first entry of a ring differs from its last (Go's `!=`); a ring without
entries has neither and counts as open. -/
def ringOpen (r : Ring) : Bool :=
  match r.toList.head?, r.toList.getLast? with
  | some a, some b => Coord.ne a b
  | _, _ => true

/-- A ring has fewer than 2 entries or its first entry differs from its last. -/
def ringMalformed (r : Ring) : Bool := decide (r.len < 2) || ringOpen r

/-- A ring holds an entry the bounds test of the validator flags. -/
def ringHasOutOfRange (r : Ring) : Bool := r.toList.any Geometry.coordOutOfRange

/-- A ring violates one of the polygon rules. -/
def ringOffending (r : Ring) : Bool := ringMalformed r || ringHasOutOfRange r

/-- The polygon rules for one ring: at least 2 entries, first entry equal to the
last, every entry in the box. -/
def ringWellFormed (r : Ring) : Bool :=
  decide (2 ≤ r.len) && !(ringOpen r) && r.toList.all inBox

/-- Every ring of the polygon payload satisfies the polygon rules. -/
def polygonWellFormed (g : Geometry) : Bool :=
  g.PolygonCoordinates.toList.all ringWellFormed

/-- No coordinate of the polygon payload is NaN. -/
def polygonNoNaN (g : Geometry) : Bool :=
  g.PolygonCoordinates.toList.all fun r =>
    r.toList.all fun c => !(c.1.isNaN) && !(c.2.isNaN)

/-- A closed ring of three entries whose middle longitude is NaN. -/
def nanRing : Ring :=
  .mk [(F64.ofInt 0, F64.ofInt 0), (F64.nan, F64.ofInt 0), (F64.ofInt 0, F64.ofInt 0)]

/-- The Polygon made of `nanRing` alone. -/
def nanPolygon : Geometry := ⟨PolygonType, zeroCoord, .mk [nanRing], .nil⟩

/-- The ring of the closed-ring test case, with whole-number coordinates. -/
def closedRing : Ring :=
  .mk [(F64.ofInt 30, F64.ofInt 10), (F64.ofInt 40, F64.ofInt 40),
    (F64.ofInt 20, F64.ofInt 40), (F64.ofInt 30, F64.ofInt 10)]

/-- The ring `[[30,10],[40,40],[20,40],[10,20]]`, whose first entry differs from its last. -/
def openRing : Ring :=
  .mk [(F64.ofInt 30, F64.ofInt 10), (F64.ofInt 40, F64.ofInt 40),
    (F64.ofInt 20, F64.ofInt 40), (F64.ofInt 10, F64.ofInt 20)]

/-- A closed ring holding the out-of-range entry (200, 0). -/
def farRing : Ring :=
  .mk [(F64.ofInt 0, F64.ofInt 0), (F64.ofInt 200, F64.ofInt 0), (F64.ofInt 0, F64.ofInt 0)]

/-- A ring that is open and also holds the out-of-range entry (200, 40). -/
def openFarRing : Ring :=
  .mk [(F64.ofInt 30, F64.ofInt 10), (F64.ofInt 200, F64.ofInt 40), (F64.ofInt 10, F64.ofInt 20)]

/-- A Polygon with a valid ring, then an open ring with an out-of-range entry,
then a closed ring with an out-of-range entry. -/
def threeRingPolygon : Geometry :=
  ⟨PolygonType, zeroCoord, .mk [closedRing, openFarRing, farRing], .nil⟩

/-- A MultiPolygon holding one valid polygon, with the other payload slots filled as well. -/
def multiPolygonGeometry : Geometry :=
  ⟨MultiPolygon, (F64.ofInt 30, F64.ofInt 10), .mk [closedRing], .mk [.mk [closedRing]]⟩

/-- Encoding into a fresh value what `MarshalJSON` wrote: `MarshalJSON`, then
`UnmarshalJSON` on the zero `Geometry`. -/
def roundTrip (g : Geometry) : Except Err Geometry := do
  let j ← g.MarshalJSON
  Geometry.zero.UnmarshalJSON (some j)

/-- Both components of a coordinate entry are finite numbers. -/
def coordFinite (c : Coord) : Bool := c.1.isFinite && c.2.isFinite

/-- Every entry of the ring is finite. -/
def ringFinite (r : Ring) : Bool := r.toList.all coordFinite

/-- Every entry of every ring is finite. -/
def ringsFinite (rs : Rings) : Bool := rs.toList.all ringFinite

/-- Every entry of every polygon is finite. -/
def multiFinite (m : Slice Rings) : Bool := m.toList.all ringsFinite

/-- The payload slot of the geometry's Kind holds finite coordinates only. -/
def payloadFinite (g : Geometry) : Bool :=
  if g.Typ = PointType then coordFinite g.PointCoordinates
  else if g.Typ = PolygonType then ringsFinite g.PolygonCoordinates
  else if g.Typ = MultiPolygon then multiFinite g.MultiPolygonCoordinates
  else true

/-- The number a finite float64 denotes (0 for the others, which have none). -/
def F64.toRat : F64 → ℚ
  | .fin q => q
  | _ => 0

/-- The JSON pair `[lon, lat]` of a coordinate entry. -/
def coordJson (c : Coord) : Json := .arr [.num c.1.toRat, .num c.2.toRat]

/-- The JSON value of a slice: null when nil, else the array of its elements' values. -/
def sliceJson {α : Type} (elem : α → Json) : Slice α → Json
  | .nil => .null
  | .mk xs => .arr (xs.map elem)

/-- The JSON ring list of a polygon payload. -/
def ringsJson (rs : Rings) : Json := sliceJson (sliceJson coordJson) rs

/-- The JSON polygon list of a multi-polygon payload. -/
def multiJson (m : Slice Rings) : Json := sliceJson ringsJson m

/-- The `coordinates` member the spec gives a geometry: the payload of its Kind,
null for any other Kind. -/
def payloadJson (g : Geometry) : Json :=
  if g.Typ = PointType then coordJson g.PointCoordinates
  else if g.Typ = PolygonType then ringsJson g.PolygonCoordinates
  else if g.Typ = MultiPolygon then multiJson g.MultiPolygonCoordinates
  else .null

/-- The geometry with the payload slots of the other Kinds reset to their zero values. -/
def ownPayloadOnly (g : Geometry) : Geometry :=
  ⟨g.Typ,
    if g.Typ = PointType then g.PointCoordinates else zeroCoord,
    if g.Typ = PolygonType then g.PolygonCoordinates else .nil,
    if g.Typ = MultiPolygon then g.MultiPolygonCoordinates else .nil⟩

/-- A Point whose latitude is plus infinity. -/
def infPoint : Geometry := ⟨PointType, (F64.ofInt 0, F64.posInf), .nil, .nil⟩

/-- The Polygon made of `closedRing` alone. -/
def closedPolygon : Geometry := ⟨PolygonType, zeroCoord, .mk [closedRing], .nil⟩

/-- String quoting that only wraps its argument in double quotes (what the
library does for text without special characters). -/
def plainQuote (s : String) : String := "\"" ++ s ++ "\""

/-- The payload slots of the other Kinds hold their zero values. -/
def otherSlotsZero (g : Geometry) : Prop :=
  (g.Typ = PointType ∨ g.PointCoordinates = zeroCoord) ∧
    (g.Typ = PolygonType ∨ g.PolygonCoordinates = .nil) ∧
    (g.Typ = MultiPolygon ∨ g.MultiPolygonCoordinates = .nil)

/-- The Point of the encoding example, `[5.123456, 10.123456]`. -/
def examplePoint : Geometry :=
  ⟨PointType, (F64.fin (5123456 / 1000000), F64.fin (10123456 / 1000000)), .nil, .nil⟩

/-- A float formatting that writes the two numbers of the encoding example as
the library does. -/
def exampleFmt (q : ℚ) : String :=
  if q = 5123456 / 1000000 then "5.123456"
  else if q = 10123456 / 1000000 then "10.123456"
  else ""

/-- The members of an object whose type is not a known Kind and whose
coordinates are not a coordinate shape. -/
def lineStringMembers : RawMap :=
  [("coordinates", .str "not a shape"), ("type", .str "LineString")]

/-- A Point repository for the examples: the store state counts the records
created, and a created record gets the next number as its identity. -/
def toyPointRepo : PointRepository Nat where
  CreatePoint := fun p n => ((⟨n + 1, p.Data⟩, none), n + 1)
  GetPointByID := fun _ n => ((none, some .gormRecordNotFound), n)
  GetPointsByContourID := fun _ n => ((.mk [], none), n)
  GetPoints := fun _ _ n => ((.mk [], none), n)

/-- A Contour repository for the examples: records get the next number as their
identity, every lookup finds a contour, and the intersection query answers `rows`. -/
def toyContourRepo (rows : Slice Contour) : ContourRepository Nat where
  CreateContour := fun c n => ((⟨n + 1, c.Data⟩, none), n + 1)
  GetContourByID := fun id n => ((some ⟨id, closedPolygon⟩, none), n)
  GetContours := fun _ _ n => ((.mk [], none), n)
  UpdateContour := fun c n => ((c, none), n)
  DeleteContour := fun _ n => (none, n)
  GetContoursIntersectArea := fun _ _ n => ((rows, none), n)

/-- The service over the example repositories. -/
def toyService (rows : Slice Contour) : GeometryServiceImpl Nat :=
  ⟨toyPointRepo, toyContourRepo rows⟩

/-- The example store before any call. -/
def toyWorld : World Nat := ⟨0, []⟩

/-- A Contour record carrying the Point (30, 10). -/
def pointContour : Contour := ⟨0, ⟨PointType, (F64.ofInt 30, F64.ofInt 10), .nil, .nil⟩⟩

/-- A Contour record carrying a MultiPolygon. -/
def multiContour : Contour := ⟨0, multiPolygonGeometry⟩

/-- A Point record carrying the Point (30, 10). -/
def validPointRecord : Point := ⟨0, ⟨PointType, (F64.ofInt 30, F64.ofInt 10), .nil, .nil⟩⟩

/-- A row of Kind Polygon with one ring, as an intersection query returns it. -/
def polygonRow : Contour := ⟨0, closedPolygon⟩

/-! ## Store literals and scanning (`GormValue`, `Scan`) -/

/-- Go's `strings.Join`. -/
def stringsJoin : List String → String → String
  | [], _ => ""
  | [a], _ => a
  | a :: b :: rest, sep => a ++ sep ++ stringsJoin (b :: rest) sep

/-- The `clause.Expr` a `GormValue` returns: the SQL text and its arguments. -/
structure Expr where
  SQL : String
  Vars : Slice String
deriving DecidableEq

namespace Geometry

/-- The inner loop of `polygonCoordinatesToString`: one `"lon lat"` text is
appended to `points` for each entry; `fmt` is `fmt.Sprint` on a float64. -/
def appendPointTexts (fmt : F64 → String) (points : List String) : List Coord → List String
  | [] => points
  | p :: rest => appendPointTexts fmt (points ++ [fmt p.1 ++ " " ++ fmt p.2]) rest

/-- The outer loop of `polygonCoordinatesToString`: one `"(...)"` text is
appended to `coords` for each ring. -/
def appendRingTexts (fmt : F64 → String) (coords : List String) : List Ring → List String
  | [] => coords
  | c :: rest =>
    appendRingTexts fmt
      (coords ++ ["(" ++ stringsJoin (appendPointTexts fmt [] c.toList) "," ++ ")"]) rest

/-- Method `polygonCoordinatesToString` of `Geometry`. -/
def polygonCoordinatesToString (fmt : F64 → String) (g : Geometry) : String :=
  stringsJoin (appendRingTexts fmt [] g.PolygonCoordinates.toList) ","

/-- Method `GormValue` of `Geometry`. -/
def GormValue (fmt : F64 → String) (g : Geometry) : Expr :=
  if g.IsPolygon then
    ⟨"ST_PolygonFromText(?)", .mk ["POLYGON(" ++ g.polygonCoordinatesToString fmt ++ ")"]⟩
  else if g.IsPoint then
    ⟨"ST_PointFromText(?)",
      .mk ["POINT(" ++ fmt g.PointCoordinates.1 ++ " " ++ fmt g.PointCoordinates.2 ++ ")"]⟩
  else ⟨"", .nil⟩

end Geometry

/-- The source value handed to `Scan`, by its dynamic type: nil, a string, a
byte sequence (given by its text), or a value of any other type. -/
inductive ScanSrc where
  | nil
  | string (s : String)
  | bytes (b : String)
  | other

/-- What `encoding/json` reads from the bytes `data`: empty input is not a JSON
value; for other input the reading is the parameter `parse`. -/
def readJson (parse : String → JsonText) (data : String) : JsonText :=
  if data = "" then none else parse data

/-- The call `json.Unmarshal(data, g)` for a `*Geometry`: a syntax error when
the bytes are not one JSON value, else `UnmarshalJSON` on that value. -/
def jsonUnmarshalGeometry (parse : String → JsonText) (data : String) (g : Geometry) :
    Except Err Geometry :=
  match readJson parse data with
  | none => .error .jsonSyntax
  | some j => g.UnmarshalJSON (some j)

/-- Method `Scan` of `Geometry` on the receiver `g`: the receiver after a call
that returns no error, or the error returned. -/
def Geometry.Scan (parse : String → JsonText) (g : Geometry) : ScanSrc → Except Err Geometry
  | .nil => .ok ⟨"", zeroCoord, .nil, .nil⟩
  | .string s => jsonUnmarshalGeometry parse s g
  | .bytes b => jsonUnmarshalGeometry parse b g
  | .other => .error .ErrUnsupportedScan

/-! ## The repositories over a database handle -/

/-- An argument bound to a `?` of a query: a `uint` or an `int`. -/
inductive SqlArg where
  | uint (n : Nat)
  | int (i : Int)
deriving DecidableEq

/-- The `filter` struct of the repository package. -/
structure filter where
  Offset : Int
  Limit : Int
  ID : Nat

/-- The operations of the `*gorm.DB` handle the repositories use, over a store
state `σ`.  A `Raw(query, args...).Scan(&dest)` gives what the scan left in
`dest` (which the caller passes in fresh) and the error. -/
structure DB (σ : Type) where
  CreatePoint : Point → σ → (Point × Option Err) × σ
  CreateContour : Contour → σ → (Contour × Option Err) × σ
  SaveContour : Contour → σ → (Contour × Option Err) × σ
  DeleteContour : Nat → σ → Option Err × σ
  ScanPoint : String → List SqlArg → σ → (Point × Option Err) × σ
  ScanPoints : String → List SqlArg → Slice Point → σ → (Slice Point × Option Err) × σ
  ScanContour : String → List SqlArg → σ → (Contour × Option Err) × σ
  ScanContours : String → List SqlArg → Slice Contour → σ → (Slice Contour × Option Err) × σ

/-- Method `getContourQuery` of the contour repository. -/
def getContourQuery (f : filter) : String × List SqlArg :=
  if f.ID != 0 then
    ("SELECT id, ST_AsGeoJSON(data) AS data FROM contours" ++ " WHERE id = ?", [.uint f.ID])
  else
    ("SELECT id, ST_AsGeoJSON(data) AS data FROM contours" ++
      " ORDER BY id DESC OFFSET ? LIMIT ?", [.int f.Offset, .int f.Limit])

/-- Method `getPointQuery` of the point repository. -/
def getPointQuery (f : filter) : String × List SqlArg :=
  if f.ID != 0 then
    ("SELECT id, ST_AsGeoJSON(data) AS data FROM points" ++ " WHERE id = ?", [.uint f.ID])
  else
    ("SELECT id, ST_AsGeoJSON(data) AS data FROM points" ++
      " ORDER BY id DESC OFFSET ? LIMIT ?", [.int f.Offset, .int f.Limit])

namespace ContourRepositoryImpl

variable {σ : Type}

/-- Method `GetContourByID` of `ContourRepositoryImpl`. -/
def GetContourByID (db : DB σ) (id : Nat) (st : σ) : (Option Contour × Option Err) × σ :=
  let r := db.ScanContour (getContourQuery ⟨0, 0, id⟩).1 (getContourQuery ⟨0, 0, id⟩).2 st
  if r.1.2.isSome then ((none, r.1.2), r.2)
  else if r.1.1.ID == 0 then ((none, some .ErrContourNotFound), r.2)
  else ((some r.1.1, none), r.2)

/-- Method `GetContours` of `ContourRepositoryImpl`. -/
def GetContours (db : DB σ) (offset limit : Int) (st : σ) :
    (Slice Contour × Option Err) × σ :=
  let r := db.ScanContours (getContourQuery ⟨offset, limit, 0⟩).1
    (getContourQuery ⟨offset, limit, 0⟩).2 .nil st
  if r.1.2.isSome then ((.nil, r.1.2), r.2) else ((r.1.1, none), r.2)

/-- Method `GetContoursIntersectArea` of `ContourRepositoryImpl`. -/
def GetContoursIntersectArea (db : DB σ) (idA idB : Nat) (st : σ) :
    (Slice Contour × Option Err) × σ :=
  let r := db.ScanContours
    ("SELECT ST_AsGeoJSON(ST_Intersection(ca.data, cb.data)) AS data " ++
      "FROM contours ca, contours cb WHERE ca.id = ? AND cb.id = ?")
    [.uint idA, .uint idB] (.mk []) st
  if r.1.2.isSome then ((.nil, r.1.2), r.2) else ((r.1.1, none), r.2)

/-- The `ContourRepositoryImpl` over a handle, as a `ContourRepository`:
`CreateContour` is `db.Create`, `UpdateContour` is `db.Save`, `DeleteContour` is
`db.Delete`. -/
def new (db : DB σ) : ContourRepository σ where
  CreateContour := db.CreateContour
  GetContourByID := GetContourByID db
  GetContours := GetContours db
  UpdateContour := db.SaveContour
  DeleteContour := db.DeleteContour
  GetContoursIntersectArea := GetContoursIntersectArea db

end ContourRepositoryImpl

namespace PointRepositoryImpl

variable {σ : Type}

/-- Method `GetPointByID` of `PointRepositoryImpl`. -/
def GetPointByID (db : DB σ) (id : Nat) (st : σ) : (Option Point × Option Err) × σ :=
  let r := db.ScanPoint (getPointQuery ⟨0, 0, id⟩).1 (getPointQuery ⟨0, 0, id⟩).2 st
  if r.1.2.isSome then ((none, r.1.2), r.2)
  else if r.1.1.ID == 0 then ((none, some .gormRecordNotFound), r.2)
  else ((some r.1.1, none), r.2)

/-- Method `GetPoints` of `PointRepositoryImpl`. -/
def GetPoints (db : DB σ) (offset limit : Int) (st : σ) : (Slice Point × Option Err) × σ :=
  let r := db.ScanPoints (getPointQuery ⟨offset, limit, 0⟩).1
    (getPointQuery ⟨offset, limit, 0⟩).2 .nil st
  if r.1.2.isSome then ((.nil, r.1.2), r.2) else ((r.1.1, none), r.2)

/-- Method `GetPointsByContourID` of `PointRepositoryImpl`. -/
def GetPointsByContourID (db : DB σ) (contourID : Nat) (st : σ) :
    (Slice Point × Option Err) × σ :=
  let r := db.ScanPoints
    ("SELECT p.id, ST_AsGeoJSON(p.data) AS data FROM points p " ++
      "JOIN contours c ON ST_Within(p.data, c.data) WHERE c.id = ?")
    [.uint contourID] (.mk []) st
  if r.1.2.isSome then ((.nil, r.1.2), r.2) else ((r.1.1, none), r.2)

/-- The `PointRepositoryImpl` over a handle, as a `PointRepository`. -/
def new (db : DB σ) : PointRepository σ where
  CreatePoint := db.CreatePoint
  GetPointByID := GetPointByID db
  GetPointsByContourID := GetPointsByContourID db
  GetPoints := GetPoints db

end PointRepositoryImpl

/-! ## The handler for one contour -/

/-- The value of a decimal digit, none for any other character. -/
def digitValue (c : Char) : Option Nat :=
  if '0' ≤ c ∧ c ≤ '9' then some (c.toNat - '0'.toNat) else none

/-- The number written by a run of decimal digits after `acc`, none when a
character is not a digit. -/
def digitsValue : List Char → Nat → Option Nat
  | [], acc => some acc
  | c :: cs, acc =>
    match digitValue c with
    | some d => digitsValue cs (acc * 10 + d)
    | none => none

/-- Go's `strconv.Atoi` on a 64-bit platform: an optional sign, then one or more
decimal digits; a syntax error otherwise, a range error outside `int`. -/
def Atoi (s : String) : Except Err Int :=
  let cs := s.toList
  let ds := if cs.head? = some '-' ∨ cs.head? = some '+' then cs.tail else cs
  if ds = [] then .error .strconvSyntax
  else
    match digitsValue ds 0 with
    | none => .error .strconvSyntax
    | some n =>
      let v : Int := if cs.head? = some '-' then -(n : Int) else (n : Int)
      if v < -(2 ^ 63) ∨ 2 ^ 63 - 1 < v then .error .strconvRange else .ok v

/-- The conversion `uint(i)` of an `int`: the value modulo 2^64. -/
def uintOfInt (i : Int) : Nat := (i % 2 ^ 64).toNat

/-- Go's `errors.Is(err, target)` on these error values, none of which wraps another. -/
def errorsIs (err target : Err) : Bool := err == target

/-- The body a handler writes: the `error` object, a contour, or a point. -/
inductive ResponseBody where
  | error (err : Err)
  | contour (c : Option Contour)
  | point (p : Point)
deriving DecidableEq

/-- The status code and body a handler writes with `c.JSON`. -/
structure HttpResponse where
  status : Nat
  body : ResponseBody
deriving DecidableEq

/-- The status `http.StatusOK`. -/
def StatusOK : Nat := 200
/-- The status `http.StatusBadRequest`. -/
def StatusBadRequest : Nat := 400
/-- The status `http.StatusNotFound`. -/
def StatusNotFound : Nat := 404
/-- The status `http.StatusInternalServerError`. -/
def StatusInternalServerError : Nat := 500

namespace GeometryServiceImpl

variable {σ : Type}

/-- Method `GetContourByID` of the service. -/
def GetContourByID (s : GeometryServiceImpl σ) (id : Nat) (w : World σ) :
    (Option Contour × Option Err) × World σ :=
  w.invoke (.GetContourByID id) (s.contourRepo.GetContourByID id)

end GeometryServiceImpl

/-- The service built by `NewGeometryService` over the two repository
implementations of one database handle. -/
def serviceOver {σ : Type} (db : DB σ) : GeometryServiceImpl σ :=
  ⟨PointRepositoryImpl.new db, ContourRepositoryImpl.new db⟩

/-- The `GeometryHandler` struct. -/
structure GeometryHandler (σ : Type) where
  geometryService : GeometryServiceImpl σ
  host : String

/-- Method `GetContourByID` of the handler, on the path parameter `id`. -/
def GeometryHandler.GetContourByID {σ : Type} (h : GeometryHandler σ) (idParam : String)
    (w : World σ) : HttpResponse × World σ :=
  match Atoi idParam with
  | .error err => (⟨StatusBadRequest, .error err⟩, w)
  | .ok id =>
    let r := h.geometryService.GetContourByID (uintOfInt id) w
    match r.1.2 with
    | some err =>
      if errorsIs err .ErrNotFound then (⟨StatusNotFound, .error err⟩, r.2)
      else (⟨StatusInternalServerError, .error err⟩, r.2)
    | none => (⟨StatusOK, .contour r.1.1⟩, r.2)

/-! ## An in-memory database for the examples -/

/-- The contours table of the example database: its rows. -/
abbrev Table := List Contour

/-- The row a single-row scan leaves in a fresh `dest`: the first row with the
identity asked for, or the zero record when the query has no row. -/
def Table.scanByID (t : Table) (id : Nat) : Contour :=
  (t.find? (fun row => row.ID == id)).getD ⟨0, Geometry.zero⟩

/-- The next free identity of the table. -/
def Table.nextID (t : Table) : Nat := (t.map (fun row => row.ID)).foldl max 0 + 1

/-- What gorm's `Save` does with a record: a record without primary key is
created; otherwise the row with its key is replaced, and when no row has the
key the record is inserted. -/
def Table.save (t : Table) (c : Contour) : Contour × Table :=
  if c.ID = 0 then (⟨t.nextID, c.Data⟩, t ++ [⟨t.nextID, c.Data⟩])
  else if t.any (fun row => row.ID == c.ID) then
    (c, t.map (fun row => if row.ID == c.ID then c else row))
  else (c, t ++ [c])

/-- The example database handle over a contours table. -/
def tableDB : DB Table where
  CreatePoint := fun p t => ((p, none), t)
  CreateContour := fun c t => ((⟨t.nextID, c.Data⟩, none), t ++ [⟨t.nextID, c.Data⟩])
  SaveContour := fun c t => (((t.save c).1, none), (t.save c).2)
  DeleteContour := fun id t => (none, t.filter (fun row => row.ID != id))
  ScanPoint := fun _ _ t => ((⟨0, Geometry.zero⟩, none), t)
  ScanPoints := fun _ _ dest t => ((dest, none), t)
  ScanContour := fun _ args t =>
    match args with
    | [.uint id] => ((t.scanByID id, none), t)
    | _ => ((⟨0, Geometry.zero⟩, none), t)
  ScanContours := fun _ _ dest t => ((dest, none), t)

/-- The handler over the example database. -/
def tableHandler : GeometryHandler Table := ⟨serviceOver tableDB, ""⟩

/-- The example database with the one contour 1. -/
def oneContourWorld : World Table := ⟨[⟨1, closedPolygon⟩], []⟩

/-- The example database without any contour. -/
def emptyWorld : World Table := ⟨[], []⟩

/-! ## Predicates and concrete inputs for the intersection, lookup and store-literal properties -/

/-- The entity the expansion makes of one constituent polygon: Kind Polygon,
that ring list, identity zero. -/
def polygonEntity (p : Rings) : Contour := ⟨0, ⟨"Polygon", zeroCoord, p, .nil⟩⟩

/-- A MultiPolygon row with identity 5 and the two constituent polygons
`[closedRing]` and `[farRing]`. -/
def multiRow : Contour :=
  ⟨5, ⟨MultiPolygon, zeroCoord, .nil, .mk [.mk [closedRing], .mk [farRing]]⟩⟩

/-- A Polygon row carrying the identity 1, as the mocked query of the service
tests returns it. -/
def identifiedRow : Contour := ⟨1, closedPolygon⟩

/-- The text of one ring in the reference rendering: its entries as `lon lat`,
joined by commas, in parentheses. -/
def referenceRing (fmt : F64 → String) (r : Ring) : String :=
  "(" ++ stringsJoin (r.toList.map (fun c => fmt c.1 ++ " " ++ fmt c.2)) "," ++ ")"

/-- The reference rendering of the store literal, as the specification words it. -/
def referenceLiteral (fmt : F64 → String) (g : Geometry) : Expr :=
  if g.Typ = PolygonType then
    ⟨"ST_PolygonFromText(?)",
      .mk ["POLYGON(" ++
        stringsJoin (g.PolygonCoordinates.toList.map (referenceRing fmt)) "," ++ ")"]⟩
  else if g.Typ = PointType then
    ⟨"ST_PointFromText(?)",
      .mk ["POINT(" ++ fmt g.PointCoordinates.1 ++ " " ++ fmt g.PointCoordinates.2 ++ ")"]⟩
  else ⟨"", .nil⟩

/-! ## Pagination, entity encoding and the writing handlers -/

/-- The value an `int` computation has on a 64-bit platform: the result modulo
2^64, read as a signed number. -/
def wrapInt (x : Int) : Int := (x + 2 ^ 63) % 2 ^ 64 - 2 ^ 63

/-- Go's `fmt.Sprint` on an `int`: its decimal digits, after a minus sign when negative. -/
def SprintInt (i : Int) : String :=
  if i < 0 then "-" ++ Nat.repr i.natAbs else Nat.repr i.toNat

/-- The constant `DefaultLimit` of the handler package. -/
def DefaultLimit : Int := 10

/-- The constant `DefaultOffset` of the handler package. -/
def DefaultOffset : Int := 0

/-- The status `http.StatusCreated`. -/
def StatusCreated : Nat := 201

namespace GeometryHandler

variable {σ : Type}

/-- Method `parseOffsetLimit` of the handler: `pageParam` is the value of the
query key `page` when the request has one (`DefaultQuery` gives `"0"` otherwise);
the result is page, offset, limit and the error. -/
def parseOffsetLimit (_h : GeometryHandler σ) (pageParam : Option String) :
    Int × Int × Int × Option Err :=
  match Atoi (pageParam.getD "0") with
  | .error err => (0, 0, 0, some err)
  | .ok page => (page, wrapInt (page * DefaultLimit), DefaultLimit, none)

/-- Method `buildNextURL` of the handler: the string pointed to, never nil. -/
def buildNextURL (h : GeometryHandler σ) (path : String) (page : Int) : Option String :=
  some (h.host ++ path ++ "?page=" ++ SprintInt (wrapInt (page + 1)))

/-- Method `buildPreviousURL` of the handler: `none` is the nil pointer. -/
def buildPreviousURL (h : GeometryHandler σ) (path : String) (page : Int) : Option String :=
  if wrapInt (page - 1) < 0 then none
  else some (h.host ++ path ++ "?page=" ++ SprintInt (wrapInt (page - 1)))

end GeometryHandler

/-- What `json.Marshal` writes for a `Point`, by its struct tags: the member
`id` (always), then the member `data` as `MarshalJSON` of the geometry gives it. -/
def marshalPoint (p : Point) : Except Err Json := do
  let data ← p.Data.MarshalJSON
  .ok (.obj [("id", .num p.ID), ("data", data)])

/-- What `json.Marshal` writes for a `Contour`, by its struct tags: the member
`id` unless the identity is zero (`omitempty`), then the member `data`. -/
def marshalContour (c : Contour) : Except Err Json := do
  let data ← c.Data.MarshalJSON
  if c.ID = 0 then .ok (.obj [("data", data)])
  else .ok (.obj [("id", .num c.ID), ("data", data)])

/-- The `CreatePointRequest` struct of the dto package. -/
structure CreatePointRequest where
  Data : Geometry

/-- Method `ToModel` of `CreatePointRequest`. -/
def CreatePointRequest.ToModel (r : CreatePointRequest) : Point := ⟨0, r.Data⟩

/-- The `CreateContourRequest` struct of the dto package. -/
structure CreateContourRequest where
  Data : Geometry

/-- Method `ToModel` of `CreateContourRequest`. -/
def CreateContourRequest.ToModel (r : CreateContourRequest) : Contour := ⟨0, r.Data⟩

namespace GeometryHandler

variable {σ : Type}

/-- Method `CreatePoint` of the handler; `bound` is what `ShouldBindJSON` made of
the request body: the request, or the binding error. -/
def CreatePoint (h : GeometryHandler σ) (bound : Except Err CreatePointRequest)
    (w : World σ) : Except Panic (HttpResponse × World σ) :=
  match bound with
  | .error err => .ok (⟨StatusBadRequest, .error err⟩, w)
  | .ok req => do
    let r ← h.geometryService.CreatePoint req.ToModel w
    match r.1.2 with
    | some err => .ok (⟨StatusInternalServerError, .error err⟩, r.2)
    | none => .ok (⟨StatusCreated, .point r.1.1⟩, r.2)

/-- Method `CreateContour` of the handler. -/
def CreateContour (h : GeometryHandler σ) (bound : Except Err CreateContourRequest)
    (w : World σ) : Except Panic (HttpResponse × World σ) :=
  match bound with
  | .error err => .ok (⟨StatusBadRequest, .error err⟩, w)
  | .ok req => do
    let r ← h.geometryService.CreateContour req.ToModel w
    match r.1.2 with
    | some err => .ok (⟨StatusInternalServerError, .error err⟩, r.2)
    | none => .ok (⟨StatusCreated, .contour (some r.1.1)⟩, r.2)

/-- Method `UpdateContour` of the handler, on the path parameter `id`. -/
def UpdateContour (h : GeometryHandler σ) (idParam : String)
    (bound : Except Err CreateContourRequest) (w : World σ) :
    Except Panic (HttpResponse × World σ) :=
  match Atoi idParam with
  | .error err => .ok (⟨StatusBadRequest, .error err⟩, w)
  | .ok id =>
    match bound with
    | .error err => .ok (⟨StatusBadRequest, .error err⟩, w)
    | .ok req => do
      let r ← h.geometryService.UpdateContour ⟨uintOfInt id, req.ToModel.Data⟩ w
      match r.1.2 with
      | some err =>
        if errorsIs err .ErrNotFound then .ok (⟨StatusNotFound, .error err⟩, r.2)
        else .ok (⟨StatusInternalServerError, .error err⟩, r.2)
      | none => .ok (⟨StatusOK, .contour (some r.1.1)⟩, r.2)

end GeometryHandler

/-! ## Predicates and concrete inputs for the pagination, encoding and handler properties -/

/-- The largest `int`. -/
def maxInt : Int := 9223372036854775807

/-- The smallest page whose offset no longer fits an `int`. -/
def hugePage : Int := 922337203685477581

/-- A Point record without identity at (30, 10). -/
def freshPoint : Point := ⟨0, ⟨PointType, (F64.ofInt 30, F64.ofInt 10), .nil, .nil⟩⟩

/-- A Point request whose latitude 200 is out of range. -/
def farPointRequest : CreatePointRequest :=
  ⟨⟨PointType, (F64.ofInt 30, F64.ofInt 200), .nil, .nil⟩⟩

/-- A Contour request whose ring is open. -/
def openContourRequest : CreateContourRequest :=
  ⟨⟨PolygonType, zeroCoord, .mk [openRing], .nil⟩⟩

/-- Two geometries of one Kind agree on the payload slot of that Kind. -/
def sameOwnPayload (g1 g2 : Geometry) : Prop :=
  g1.Typ = g2.Typ ∧
    (g1.Typ = PointType → g1.PointCoordinates = g2.PointCoordinates) ∧
    (g1.Typ = PolygonType → g1.PolygonCoordinates = g2.PolygonCoordinates) ∧
    (g1.Typ = MultiPolygon → g1.MultiPolygonCoordinates = g2.MultiPolygonCoordinates)

/-- A MultiPolygon row whose only constituent polygon has an empty ring list. -/
def emptyPolygonRow : Contour := ⟨0, ⟨MultiPolygon, zeroCoord, .nil, .mk [.mk []]⟩⟩

/-- A Point record carrying the valid one-ring polygon. -/
def polygonPointRecord : Point := ⟨0, closedPolygon⟩

/-- The handler over the example database with the host of the handler tests. -/
def localHandler : GeometryHandler Table := ⟨serviceOver tableDB, "http://localhost"⟩

/-! ## Predicates and concrete inputs for the ring rules stated against the box -/

/-- Both components of a coordinate entry are numbers (not NaN). -/
def coordNoNaN (c : Coord) : Bool := !(c.1.isNaN) && !(c.2.isNaN)

/-- A ring holds an entry that does not lie in the box. -/
def ringOutsideBox (r : Ring) : Bool := r.toList.any fun c => !(inBox c)

/-- A ring breaks one of the polygon rules: fewer than 2 entries, first entry
different from the last, or an entry outside the box. -/
def ringBreaksRule (r : Ring) : Bool := ringMalformed r || ringOutsideBox r

/-- The Polygon made of the closed ring with a NaN longitude, then the open ring. -/
def nanOpenPolygon : Geometry := ⟨PolygonType, zeroCoord, .mk [nanRing, openRing], .nil⟩

/-- A Contour record carrying the Point (30, 200), whose latitude is outside the box. -/
def farPointContour : Contour :=
  ⟨0, ⟨PointType, (F64.ofInt 30, F64.ofInt 200), .nil, .nil⟩⟩

/-- A Contour record carrying the Point (NaN, 0). -/
def nanPointContour : Contour := ⟨0, nanPoint⟩

/-! ## Properties: validation -/

theorem F64.lt_eq_not_le (a b : F64) (ha : a.isNaN = false) (hb : b.isNaN = false) :
    F64.lt a b = !(F64.le b a) := by
  cases a <;> cases b <;> simp_all [F64.lt, F64.le, F64.eq, F64.isNaN]
  rename_i x y
  by_cases h : x < y
  · simp [h, not_lt_of_lt h, ne_of_gt h]
  · simp only [h, decide_False]
    rcases lt_or_eq_of_le (not_lt.mp h) with h1 | h1
    · simp [h1]
    · simp [h1]

theorem F64.ofInt_isNaN (n : Int) : (F64.ofInt n).isNaN = false := rfl

theorem coordOutOfRange_eq_not_inBox (c : Coord) (h1 : c.1.isNaN = false)
    (h2 : c.2.isNaN = false) : Geometry.coordOutOfRange c = !(inBox c) := by
  simp only [Geometry.coordOutOfRange, inBox, F64.gt,
    F64.lt_eq_not_le _ _ h1 (F64.ofInt_isNaN _), F64.lt_eq_not_le _ _ (F64.ofInt_isNaN _) h1,
    F64.lt_eq_not_le _ _ h2 (F64.ofInt_isNaN _), F64.lt_eq_not_le _ _ (F64.ofInt_isNaN _) h2,
    Bool.not_and]

theorem Validate_point (g : Geometry) (hk : g.Typ = PointType) :
    g.Validate = .ok g.validatePoint := by
  simp [Geometry.Validate, Geometry.IsPoint, hk]

/-- C1 (as stated, refuted): the Point with longitude NaN and latitude 0 passes
`Validate` although its longitude does not satisfy `-180 <= lon <= 180`. -/
theorem Validate_point_nan_passes :
    nanPoint.Typ = PointType ∧ nanPoint.Validate = .ok none ∧
      inBox nanPoint.PointCoordinates = false := by
  exact ⟨rfl, rfl, rfl⟩

/-- C1 (amended): for a Point whose coordinates are not NaN, `Validate` succeeds
exactly when the coordinates lie in the box, and returns CoordinatesOutOfRange
when they do not. -/
theorem Validate_point_iff_inBox (g : Geometry) (hk : g.Typ = PointType)
    (hlon : g.PointCoordinates.1.isNaN = false) (hlat : g.PointCoordinates.2.isNaN = false) :
    (g.Validate = .ok none ↔ inBox g.PointCoordinates = true) ∧
      (inBox g.PointCoordinates = false →
        g.Validate = .ok (some .ErrCoordinatesOutOfRange)) := by
  rw [Validate_point g hk]
  simp only [Geometry.validatePoint, coordOutOfRange_eq_not_inBox _ hlon hlat]
  cases inBox g.PointCoordinates <;> simp

/-- Witness for `Validate_point_iff_inBox`: the Point (30, 10). -/
theorem Validate_point_iff_inBox_witness :
    ((⟨PointType, (F64.ofInt 30, F64.ofInt 10), .nil, .nil⟩ : Geometry).Validate
        = .ok none ↔
      inBox (F64.ofInt 30, F64.ofInt 10) = true) ∧
    (inBox (F64.ofInt 30, F64.ofInt 10) = false →
      (⟨PointType, (F64.ofInt 30, F64.ofInt 10), .nil, .nil⟩ : Geometry).Validate
        = .ok (some .ErrCoordinatesOutOfRange)) :=
  Validate_point_iff_inBox ⟨PointType, (F64.ofInt 30, F64.ofInt 10), .nil, .nil⟩
    rfl rfl rfl

theorem validateCoords_eq (cs : List Coord) :
    Geometry.validateCoords cs =
      if cs.any Geometry.coordOutOfRange then some .ErrCoordinatesOutOfRange else none := by
  induction cs with
  | nil => rfl
  | cons c cs ih =>
    by_cases h : Geometry.coordOutOfRange c = true
    · simp [Geometry.validateCoords, h]
    · simp only [Bool.not_eq_true] at h
      rw [Geometry.validateCoords, List.any_cons, h, ih]
      cases cs.any Geometry.coordOutOfRange <;> rfl

theorem Slice.index_zero {α : Type} (s : Slice α) (a : α) (l : List α)
    (h : s.toList = a :: l) : s.index 0 = .ok a := by
  simp [Slice.index, h]

theorem Slice.index_last {α : Type} (s : Slice α) (b : α)
    (h : s.toList.getLast? = some b) : s.index (s.len - 1) = .ok b := by
  have h2 : s.toList.get? (s.len - 1) = some b := by
    rw [List.get?_eq_getElem?, Slice.len, ← List.getLast?_eq_getElem?, h]
  unfold Slice.index
  rw [h2]

/-- One step of the ring loop: the verdict on the first ring, or the loop on the rest. -/
theorem validateRings_cons (r : Ring) (rest : List Ring) :
    Geometry.validateRings (r :: rest) =
      if ringMalformed r then .ok (some .ErrInvalidContours)
      else if ringHasOutOfRange r then .ok (some .ErrCoordinatesOutOfRange)
      else Geometry.validateRings rest := by
  by_cases hlen : r.len < 2
  · simp [Geometry.validateRings, ringMalformed, hlen]
  · obtain ⟨a, l, hl⟩ : ∃ a l, r.toList = a :: l := by
      cases h : r.toList with
      | nil => simp [Slice.len, h] at hlen
      | cons a l => exact ⟨a, l, rfl⟩
    obtain ⟨b, hb⟩ : ∃ b, r.toList.getLast? = some b := by
      rw [hl]; exact ⟨(a :: l).getLast (by simp), List.getLast?_eq_getLast _ _⟩
    have hopen : ringOpen r = Coord.ne a b := by
      simp only [ringOpen, hb]
      simp [hl]
    simp only [Geometry.validateRings, hlen, Slice.index_zero r a l hl, Slice.index_last r b hb,
      ringMalformed, hopen, validateCoords_eq, ringHasOutOfRange]
    by_cases h1 : Coord.ne a b = true
    · simp [h1, bind, Except.bind]
    · by_cases h2 : r.toList.any Geometry.coordOutOfRange = true
      · simp [h1, h2, bind, Except.bind]
      · simp [h1, h2, bind, Except.bind]

theorem validateRings_ok_none_iff (rs : List Ring) :
    Geometry.validateRings rs = .ok none ↔ ∀ r ∈ rs, ringOffending r = false := by
  induction rs with
  | nil => simp [Geometry.validateRings]
  | cons r rest ih =>
    rw [validateRings_cons]
    by_cases h1 : ringMalformed r = true
    · simp [h1, ringOffending]
    · by_cases h2 : ringHasOutOfRange r = true
      · simp [h1, h2, ringOffending]
      · simp only [Bool.not_eq_true] at h1 h2
        simp [h1, h2, ringOffending, ih]

theorem validateRings_first_offending (pre : List Ring) (r : Ring) (post : List Ring)
    (hpre : ∀ x ∈ pre, ringOffending x = false) (hr : ringOffending r = true) :
    Geometry.validateRings (pre ++ r :: post) =
      .ok (some (if ringMalformed r then .ErrInvalidContours
        else .ErrCoordinatesOutOfRange)) := by
  induction pre with
  | nil =>
    rw [List.nil_append, validateRings_cons]
    by_cases h1 : ringMalformed r = true
    · simp [h1]
    · simp only [Bool.not_eq_true] at h1
      have h2 : ringHasOutOfRange r = true := by simpa [ringOffending, h1] using hr
      simp [h1, h2]
  | cons x pre ih =>
    have hx : ringOffending x = false := hpre x (List.mem_cons_self _ _)
    have hx1 : ringMalformed x = false := by
      cases h : ringMalformed x <;> simp_all [ringOffending]
    have hx2 : ringHasOutOfRange x = false := by
      cases h : ringHasOutOfRange x <;> simp_all [ringOffending]
    rw [List.cons_append, validateRings_cons]
    simp only [hx1, hx2, Bool.false_eq_true, if_false]
    exact ih (fun y hy => hpre y (List.mem_cons_of_mem _ hy))

theorem validateRings_fail_split (rs : List Ring)
    (h : Geometry.validateRings rs ≠ .ok none) :
    ∃ pre r post, rs = pre ++ r :: post ∧ (∀ x ∈ pre, ringOffending x = false) ∧
      ringOffending r = true := by
  induction rs with
  | nil => simp [Geometry.validateRings] at h
  | cons r rest ih =>
    by_cases hr : ringOffending r = true
    · exact ⟨[], r, rest, rfl, by simp, hr⟩
    · simp only [Bool.not_eq_true] at hr
      have hr1 : ringMalformed r = false := by
        cases h : ringMalformed r <;> simp_all [ringOffending]
      have hr2 : ringHasOutOfRange r = false := by
        cases h : ringHasOutOfRange r <;> simp_all [ringOffending]
      rw [validateRings_cons] at h
      simp only [hr1, hr2, Bool.false_eq_true, if_false] at h
      obtain ⟨pre, x, post, he, hpre, hx⟩ := ih h
      refine ⟨r :: pre, x, post, by simp [he], ?_, hx⟩
      intro y hy
      rcases List.mem_cons.mp hy with rfl | hy
      · exact hr
      · exact hpre y hy

theorem Validate_polygon (g : Geometry) (hk : g.Typ = PolygonType) :
    g.Validate = Geometry.validateRings g.PolygonCoordinates.toList := by
  simp [Geometry.Validate, Geometry.IsPoint, Geometry.IsPolygon, Geometry.validatePolygon, hk,
    PolygonType, PointType]

theorem ringWellFormed_eq_not_offending (r : Ring)
    (h : (r.toList.all fun c => !(c.1.isNaN) && !(c.2.isNaN)) = true) :
    ringWellFormed r = !(ringOffending r) := by
  have hall : r.toList.all inBox = !(r.toList.any Geometry.coordOutOfRange) := by
    generalize r.toList = cs at h
    induction cs with
    | nil => rfl
    | cons c cs ih =>
      simp only [List.all_cons, Bool.and_eq_true, Bool.not_eq_true'] at h
      rw [List.all_cons, List.any_cons, ih h.2,
        coordOutOfRange_eq_not_inBox c h.1.1 h.1.2]
      cases inBox c <;> simp
  simp only [ringWellFormed, ringOffending, ringMalformed, ringHasOutOfRange, hall]
  by_cases hlen : r.len < 2
  · have : ¬ 2 ≤ r.len := by omega
    simp [hlen, this]
  · have : 2 ≤ r.len := by omega
    simp [hlen, this]

/-- C2 (as stated, refuted): the Polygon whose single ring `[[0,0],[NaN,0],[0,0]]`
is closed and has 3 entries passes `Validate` although the NaN longitude is not
in [-180,180]. -/
theorem Validate_polygon_nan_passes :
    nanPolygon.Typ = PolygonType ∧ nanPolygon.Validate = .ok none ∧
      polygonWellFormed nanPolygon = false := by
  exact ⟨rfl, rfl, rfl⟩

/-- C2 (amended): for a Polygon none of whose coordinates is NaN, `Validate`
succeeds exactly when every ring has at least 2 entries, has its first entry
equal to its last, and has every entry in the box. -/
theorem Validate_polygon_iff_wellFormed (g : Geometry) (hk : g.Typ = PolygonType)
    (hnan : polygonNoNaN g = true) :
    g.Validate = .ok none ↔ polygonWellFormed g = true := by
  rw [Validate_polygon g hk, validateRings_ok_none_iff]
  simp only [polygonWellFormed, List.all_eq_true]
  simp only [polygonNoNaN, List.all_eq_true] at hnan
  constructor
  · intro h r hr
    rw [ringWellFormed_eq_not_offending r (by simpa using hnan r hr), h r hr]
    rfl
  · intro h r hr
    have := h r hr
    rw [ringWellFormed_eq_not_offending r (by simpa using hnan r hr)] at this
    simpa using this

/-- Witness for `Validate_polygon_iff_wellFormed`: the one-ring closed polygon. -/
theorem Validate_polygon_iff_wellFormed_witness :
    (⟨PolygonType, zeroCoord, .mk [closedRing], .nil⟩ : Geometry).Validate = .ok none ↔
      polygonWellFormed ⟨PolygonType, zeroCoord, .mk [closedRing], .nil⟩ = true :=
  Validate_polygon_iff_wellFormed ⟨PolygonType, zeroCoord, .mk [closedRing], .nil⟩ rfl
    rfl

theorem ringOutsideBox_eq_hasOutOfRange (r : Ring)
    (h : (r.toList.all fun c => !(c.1.isNaN) && !(c.2.isNaN)) = true) :
    ringOutsideBox r = ringHasOutOfRange r := by
  unfold ringOutsideBox ringHasOutOfRange
  generalize r.toList = cs at h
  induction cs with
  | nil => rfl
  | cons c cs ih =>
    simp only [List.all_cons, Bool.and_eq_true, Bool.not_eq_true'] at h
    rw [List.any_cons, List.any_cons, ih (by simpa using h.2),
      coordOutOfRange_eq_not_inBox c h.1.1 h.1.2]

theorem ringBreaksRule_eq_offending (r : Ring)
    (h : (r.toList.all fun c => !(c.1.isNaN) && !(c.2.isNaN)) = true) :
    ringBreaksRule r = ringOffending r := by
  rw [ringBreaksRule, ringOffending, ringOutsideBox_eq_hasOutOfRange r h]

/-- C3 (as stated, refuted): in the Polygon whose first ring `[[0,0],[NaN,0],[0,0]]`
is closed, has 3 entries and holds a longitude outside [-180,180], and whose
second ring is open, the first ring that breaks a rule is the first one, which
calls for CoordinatesOutOfRange; `Validate` returns InvalidContours, decided by
the second ring. -/
theorem Validate_polygon_nan_ring_skipped :
    nanOpenPolygon.Typ = PolygonType ∧
      nanOpenPolygon.PolygonCoordinates.toList = [] ++ nanRing :: [openRing] ∧
      ringBreaksRule nanRing = true ∧ ringMalformed nanRing = false ∧
      nanOpenPolygon.Validate = .ok (some .ErrInvalidContours) :=
  ⟨rfl, rfl, rfl, rfl, rfl⟩

/-- C3 (amended): a Polygon none of whose coordinates is NaN and that fails
`Validate` has a first ring that breaks a rule (every ring before it has at
least 2 entries, is closed and lies in the box), and that ring alone decides
the error: InvalidContours when it has fewer than 2 entries or its first entry
differs from its last, also when it holds an entry outside the box as well;
CoordinatesOutOfRange when it is closed with at least 2 entries and holds an
entry outside the box.  The rings after it are arbitrary. -/
theorem Validate_polygon_first_offending_ring (g : Geometry) (hk : g.Typ = PolygonType)
    (hnan : polygonNoNaN g = true) :
    (∀ pre r post, g.PolygonCoordinates.toList = pre ++ r :: post →
        (∀ x ∈ pre, ringBreaksRule x = false) → ringBreaksRule r = true →
        g.Validate = .ok (some (if ringMalformed r then .ErrInvalidContours
          else .ErrCoordinatesOutOfRange))) ∧
      (g.Validate ≠ .ok none →
        ∃ pre r post, g.PolygonCoordinates.toList = pre ++ r :: post ∧
          (∀ x ∈ pre, ringBreaksRule x = false) ∧ ringBreaksRule r = true) := by
  rw [Validate_polygon g hk]
  simp only [polygonNoNaN, List.all_eq_true] at hnan
  have hconv : ∀ x ∈ g.PolygonCoordinates.toList, ringBreaksRule x = ringOffending x :=
    fun x hx => ringBreaksRule_eq_offending x (by simpa using hnan x hx)
  constructor
  · intro pre r post he hpre hr
    have hmem : ∀ x ∈ pre ++ r :: post, ringBreaksRule x = ringOffending x := by
      intro x hx; exact hconv x (he ▸ hx)
    rw [he]
    refine validateRings_first_offending pre r post (fun x hx => ?_) ?_
    · rw [← hmem x (List.mem_append_left _ hx)]; exact hpre x hx
    · rw [← hmem r (List.mem_append_right _ (List.mem_cons_self _ _))]; exact hr
  · intro hfail
    obtain ⟨pre, r, post, he, hpre, hr⟩ := validateRings_fail_split _ hfail
    refine ⟨pre, r, post, he, fun x hx => ?_, ?_⟩
    · rw [hconv x (he ▸ List.mem_append_left _ hx)]; exact hpre x hx
    · rw [hconv r (he ▸ List.mem_append_right _ (List.mem_cons_self _ _))]; exact hr

/-- Witness for `Validate_polygon_first_offending_ring`: after a valid ring, an
open ring holding an entry outside the box gives InvalidContours, whatever
follows. -/
theorem Validate_polygon_first_offending_ring_witness :
    threeRingPolygon.Typ = PolygonType ∧ polygonNoNaN threeRingPolygon = true ∧
      threeRingPolygon.Validate = .ok (some .ErrInvalidContours) :=
  ⟨rfl, rfl, (Validate_polygon_first_offending_ring threeRingPolygon rfl rfl).1
    [closedRing] openFarRing [farRing] rfl (by decide) rfl⟩

theorem Validate_neither (g : Geometry) (h1 : g.Typ ≠ PointType)
    (h2 : g.Typ ≠ PolygonType) : g.Validate = .ok (some .ErrInvalidGeometryType) := by
  simp [Geometry.Validate, Geometry.IsPoint, Geometry.IsPolygon, h1, h2]

/-- C4: a geometry whose Kind is neither Point nor Polygon (MultiPolygon, the
empty Kind, any other string) fails `Validate` with InvalidGeometryType, whatever
its payload slots hold. -/
theorem Validate_other_kind (g : Geometry) (h1 : g.Typ ≠ PointType)
    (h2 : g.Typ ≠ PolygonType) : g.Validate = .ok (some .ErrInvalidGeometryType) :=
  Validate_neither g h1 h2

/-- Witness for `Validate_other_kind`: a MultiPolygon with every payload slot filled. -/
theorem Validate_other_kind_witness :
    multiPolygonGeometry.Typ ≠ PointType ∧ multiPolygonGeometry.Typ ≠ PolygonType ∧
      multiPolygonGeometry.Validate = .ok (some .ErrInvalidGeometryType) :=
  ⟨by decide, by decide, Validate_other_kind multiPolygonGeometry (by decide) (by decide)⟩

/-! ## Properties: the JSON codec -/

theorem marshalFloat_finite (x : F64) (h : x.isFinite = true) :
    marshalFloat x = .ok (.num x.toRat) := by
  cases x <;> simp_all [F64.isFinite, marshalFloat, F64.toRat]

theorem marshalCoord_finite (c : Coord) (h : coordFinite c = true) :
    marshalCoord c = .ok (coordJson c) := by
  simp only [coordFinite, Bool.and_eq_true] at h
  simp [marshalCoord, marshalFloat_finite _ h.1, marshalFloat_finite _ h.2, coordJson, bind,
    Except.bind]

theorem marshalElems_eq_map {α : Type} (enc : α → Except Err Json) (f : α → Json)
    (xs : List α) (h : ∀ x ∈ xs, enc x = .ok (f x)) :
    marshalElems enc xs = .ok (xs.map f) := by
  induction xs with
  | nil => rfl
  | cons x xs ih =>
    have hx := h x (List.mem_cons_self _ _)
    have hxs := ih (fun y hy => h y (List.mem_cons_of_mem _ hy))
    simp [marshalElems, hx, hxs, bind, Except.bind]

theorem marshalSlice_eq_sliceJson {α : Type} (enc : α → Except Err Json) (f : α → Json)
    (s : Slice α) (h : ∀ x ∈ s.toList, enc x = .ok (f x)) :
    marshalSlice enc s = .ok (sliceJson f s) := by
  cases s with
  | nil => rfl
  | mk xs =>
    simp [marshalSlice, marshalElems_eq_map enc f xs h, sliceJson, bind, Except.bind]

theorem marshalRing_finite (r : Ring) (h : ringFinite r = true) :
    marshalRing r = .ok (sliceJson coordJson r) := by
  simp only [ringFinite, List.all_eq_true] at h
  exact marshalSlice_eq_sliceJson _ _ _ (fun c hc => marshalCoord_finite c (h c hc))

theorem marshalRings_finite (rs : Rings) (h : ringsFinite rs = true) :
    marshalRings rs = .ok (ringsJson rs) := by
  simp only [ringsFinite, List.all_eq_true] at h
  exact marshalSlice_eq_sliceJson _ _ _ (fun r hr => marshalRing_finite r (h r hr))

theorem marshalMulti_finite (m : Slice Rings) (h : multiFinite m = true) :
    marshalMulti m = .ok (multiJson m) := by
  simp only [multiFinite, List.all_eq_true] at h
  exact marshalSlice_eq_sliceJson _ _ _ (fun r hr => marshalRings_finite r (h r hr))

theorem kinds_distinct :
    PolygonType ≠ PointType ∧ MultiPolygon ≠ PointType ∧ MultiPolygon ≠ PolygonType := by
  decide

theorem MarshalJSON_finite (g : Geometry) (h : payloadFinite g = true) :
    g.MarshalJSON = .ok (.obj [("type", .str g.Typ), ("coordinates", payloadJson g)]) := by
  unfold Geometry.MarshalJSON payloadJson
  unfold payloadFinite at h
  by_cases h1 : g.Typ = PointType
  · rw [if_pos h1] at h ⊢
    rw [if_pos h1, marshalCoord_finite _ h]
    rfl
  · rw [if_neg h1] at h ⊢
    rw [if_neg h1]
    by_cases h2 : g.Typ = PolygonType
    · rw [if_pos h2] at h ⊢
      rw [if_pos h2, marshalRings_finite _ h]
      rfl
    · rw [if_neg h2] at h ⊢
      rw [if_neg h2]
      by_cases h3 : g.Typ = MultiPolygon
      · rw [if_pos h3] at h ⊢
        rw [if_pos h3, marshalMulti_finite _ h]
        rfl
      · rw [if_neg h3, if_neg h3]
        rfl

theorem unmarshalCoordValue_coordJson (cur c : Coord) (h : coordFinite c = true) :
    unmarshalCoordValue cur (coordJson c) = .ok c := by
  obtain ⟨x, y⟩ := c
  cases x <;> cases y <;>
    simp_all [coordFinite, F64.isFinite, coordJson, unmarshalCoordValue, unmarshalFloat,
      F64.toRat, bind, Except.bind]

theorem unmarshalElems_map {α : Type} (zero : α) (dec : α → Json → Except Err α)
    (f : α → Json) (xs : List α) (h : ∀ x ∈ xs, ∀ cur, dec cur (f x) = .ok x)
    (cur : List α) : unmarshalElems zero dec cur (xs.map f) = .ok xs := by
  induction xs generalizing cur with
  | nil => rfl
  | cons x xs ih =>
    have hx := h x (List.mem_cons_self _ _) (cur.headD zero)
    have hxs := ih (fun y hy => h y (List.mem_cons_of_mem _ hy)) cur.tail
    rw [List.map_cons, unmarshalElems, hx, hxs]
    rfl

theorem unmarshalSliceValue_sliceJson {α : Type} (zero : α)
    (dec : α → Json → Except Err α) (f : α → Json) (s : Slice α)
    (h : ∀ x ∈ s.toList, ∀ cur, dec cur (f x) = .ok x) (cur : Slice α) :
    unmarshalSliceValue zero dec cur (sliceJson f s) = .ok s := by
  cases s with
  | nil => rfl
  | mk xs =>
    simp [unmarshalSliceValue, sliceJson, unmarshalElems_map zero dec f xs h, bind,
      Except.bind]

theorem unmarshalRingValue_sliceJson (cur r : Ring) (h : ringFinite r = true) :
    unmarshalRingValue cur (sliceJson coordJson r) = .ok r := by
  simp only [ringFinite, List.all_eq_true] at h
  exact unmarshalSliceValue_sliceJson _ _ _ _
    (fun c hc cur => unmarshalCoordValue_coordJson cur c (h c hc)) cur

theorem unmarshalRingsValue_ringsJson (cur rs : Rings) (h : ringsFinite rs = true) :
    unmarshalRingsValue cur (ringsJson rs) = .ok rs := by
  simp only [ringsFinite, List.all_eq_true] at h
  exact unmarshalSliceValue_sliceJson _ _ _ _
    (fun r hr cur => unmarshalRingValue_sliceJson cur r (h r hr)) cur

theorem UnmarshalJSON_encoded (g : Geometry) (h : payloadFinite g = true) :
    Geometry.zero.UnmarshalJSON
        (some (.obj [("type", .str g.Typ), ("coordinates", payloadJson g)])) =
      .ok (ownPayloadOnly g) := by
  obtain ⟨hd1, hd2, hd3⟩ := kinds_distinct
  have hl1 : RawMap.lookup [("type", Json.str g.Typ), ("coordinates", payloadJson g)] "type"
      = some (.str g.Typ) := rfl
  have hl2 : RawMap.lookup [("type", Json.str g.Typ), ("coordinates", payloadJson g)]
      "coordinates" = some (payloadJson g) := rfl
  unfold Geometry.UnmarshalJSON
  simp only [unmarshalRawMap, hl1, hl2, unmarshalString, bind, Except.bind, pure, Except.pure,
    Geometry.IsPoint, Geometry.IsPolygon, Geometry.IsMultiPolygon, beq_iff_eq]
  unfold payloadFinite at h
  unfold payloadJson ownPayloadOnly
  by_cases h1 : g.Typ = PointType
  · rw [if_pos h1] at h
    simp [h1, hd1.symm, hd2.symm, unmarshalInto, unmarshalCoordValue_coordJson _ _ h,
      Geometry.zero]
  · rw [if_neg h1] at h
    by_cases h2 : g.Typ = PolygonType
    · rw [if_pos h2] at h
      simp [h2, hd1, hd3.symm, unmarshalInto, unmarshalRingsValue_ringsJson _ _ h,
        Geometry.zero]
    · rw [if_neg h2] at h
      by_cases h3 : g.Typ = MultiPolygon
      · rw [if_pos h3] at h
        have hm : unmarshalMultiValue Slice.nil (multiJson g.MultiPolygonCoordinates)
            = .ok g.MultiPolygonCoordinates := by
          simp only [multiFinite, List.all_eq_true] at h
          exact unmarshalSliceValue_sliceJson _ _ _ _
            (fun r hr cur => unmarshalRingsValue_ringsJson cur r (h r hr)) _
        simp [h3, hd2, hd3, unmarshalInto, hm, Geometry.zero]
      · simp [h1, h2, h3, Geometry.zero]

theorem roundTrip_eq (g : Geometry) (h : payloadFinite g = true) :
    roundTrip g = .ok (ownPayloadOnly g) := by
  unfold roundTrip
  rw [MarshalJSON_finite g h]
  exact UnmarshalJSON_encoded g h

theorem ownPayloadOnly_eq_self (g : Geometry) (h : otherSlotsZero g) :
    ownPayloadOnly g = g := by
  obtain ⟨t, p, q, m⟩ := g
  obtain ⟨h1, h2, h3⟩ := h
  simp only [ownPayloadOnly, Geometry.mk.injEq, true_and]
  refine ⟨?_, ?_, ?_⟩
  · rcases h1 with h1 | h1
    · simp only at h1; simp [h1]
    · simp only at h1; simp [h1]
  · rcases h2 with h2 | h2
    · simp only at h2; simp [h2]
    · simp only at h2; simp [h2]
  · rcases h3 with h3 | h3
    · simp only at h3; simp [h3]
    · simp only at h3; simp [h3]

/-- C5 (as stated, refuted): the Polygon `nanPolygon` has only the payload slot
of its Kind populated, yet `MarshalJSON` returns an error on it (NaN is an
unsupported value), so there are no bytes to decode. -/
theorem roundTrip_nan_fails :
    nanPolygon.Typ = PolygonType ∧ nanPolygon.PointCoordinates = zeroCoord ∧
      nanPolygon.MultiPolygonCoordinates = .nil ∧
      nanPolygon.MarshalJSON = .error .jsonUnsupportedValue ∧
      roundTrip nanPolygon = .error .jsonUnsupportedValue :=
  ⟨rfl, rfl, rfl, rfl, rfl⟩

/-- C5 (amended): for a geometry (a Point or a Polygon in particular) whose
payload holds finite coordinates only, `MarshalJSON` followed by `UnmarshalJSON`
into a fresh value succeeds and yields the same Kind and payload, the other
slots being zero; so it yields the geometry itself when only the slot of its
Kind was populated. -/
theorem roundTrip_point_polygon (g : Geometry) (hfin : payloadFinite g = true) :
    roundTrip g = .ok (ownPayloadOnly g) ∧ (ownPayloadOnly g).Typ = g.Typ ∧
      (g.Typ = PointType → (ownPayloadOnly g).PointCoordinates = g.PointCoordinates) ∧
      (g.Typ = PolygonType →
        (ownPayloadOnly g).PolygonCoordinates = g.PolygonCoordinates) ∧
      (otherSlotsZero g → roundTrip g = .ok g) := by
  refine ⟨roundTrip_eq g hfin, rfl, ?_, ?_, ?_⟩
  · intro h; simp [ownPayloadOnly, h]
  · intro h; simp [ownPayloadOnly, h]
  · intro h
    rw [roundTrip_eq g hfin, ownPayloadOnly_eq_self g h]

/-- Witness for `roundTrip_point_polygon`: the one-ring closed polygon decodes
back to itself. -/
theorem roundTrip_point_polygon_witness :
    payloadFinite closedPolygon = true ∧ roundTrip closedPolygon = .ok closedPolygon :=
  ⟨rfl, (roundTrip_point_polygon closedPolygon rfl).2.2.2.2
    ⟨Or.inr rfl, Or.inl rfl, Or.inr rfl⟩⟩

/-- C6 (as stated, refuted): on the Point with latitude plus infinity
`MarshalJSON` yields no JSON object but the library's unsupported-value error. -/
theorem MarshalJSON_inf_fails :
    infPoint.Typ = PointType ∧ infPoint.MarshalJSON = .error .jsonUnsupportedValue :=
  ⟨rfl, rfl⟩

/-- C6 (amended): for a geometry whose payload for its Kind holds finite
coordinates only, `MarshalJSON` writes the object with the members `type` (the
Kind) and `coordinates`, in that order, the latter being the Point pair, the
ring list, the polygon list, or null for any other Kind; the text of a Point
is `{"type":"Point","coordinates":[lon,lat]}` in the library's quoting and
number formatting. -/
theorem MarshalJSON_shape (g : Geometry) (h : payloadFinite g = true) :
    g.MarshalJSON = .ok (.obj [("type", .str g.Typ), ("coordinates", payloadJson g)]) ∧
      (g.Typ = PointType → ∀ (quote : String → String) (fmtNum : ℚ → String),
        (g.MarshalJSON.map (Json.render quote fmtNum)) =
          .ok ("\x7b" ++ (quote "type" ++ ":" ++ quote "Point" ++ "," ++
            (quote "coordinates" ++ ":" ++
              ("[" ++ (fmtNum g.PointCoordinates.1.toRat ++ "," ++
                fmtNum g.PointCoordinates.2.toRat) ++ "]"))) ++ "\x7d")) := by
  refine ⟨MarshalJSON_finite g h, ?_⟩
  intro hk quote fmtNum
  rw [MarshalJSON_finite g h]
  simp [payloadJson, hk, Except.map, Json.render, Json.renderMembers, Json.renderElems,
    coordJson, PointType]

/-- Witness for `MarshalJSON_shape`: the Point `[5.123456, 10.123456]`. -/
theorem MarshalJSON_shape_witness :
    examplePoint.MarshalJSON =
        .ok (.obj [("type", .str "Point"),
          ("coordinates", .arr [.num (5123456 / 1000000), .num (10123456 / 1000000)])]) ∧
      (examplePoint.MarshalJSON.map (Json.render plainQuote exampleFmt)) =
        .ok "\x7b\"type\":\"Point\",\"coordinates\":[5.123456,10.123456]\x7d" := by
  have h := MarshalJSON_shape examplePoint rfl
  refine ⟨h.1, ?_⟩
  rw [h.2 rfl plainQuote exampleFmt]
  have e1 : exampleFmt (5123456 / 1000000) = "5.123456" := by simp [exampleFmt]
  have e2 : exampleFmt (10123456 / 1000000) = "10.123456" := by
    simp only [exampleFmt]; norm_num
  simp only [examplePoint, F64.toRat, e1, e2]
  rfl

/-- C7: decoding into a fresh geometry a JSON object whose `type` member is a
string other than Point, Polygon and MultiPolygon returns no error, records the
string as the Kind and leaves the three payload slots at their zero values,
whatever the other members are. -/
theorem UnmarshalJSON_unrecognized (members : RawMap) (t : String)
    (ht : RawMap.lookup members "type" = some (.str t)) (h1 : t ≠ PointType)
    (h2 : t ≠ PolygonType) (h3 : t ≠ MultiPolygon) :
    Geometry.zero.UnmarshalJSON (some (.obj members)) = .ok ⟨t, zeroCoord, .nil, .nil⟩ := by
  unfold Geometry.UnmarshalJSON
  simp [unmarshalRawMap, ht, unmarshalString, bind, Except.bind, pure, Except.pure,
    Geometry.IsPoint, Geometry.IsPolygon, Geometry.IsMultiPolygon, h1, h2, h3, Geometry.zero]

/-- Witness for `UnmarshalJSON_unrecognized`: type LineString with coordinates
that are no coordinate shape. -/
theorem UnmarshalJSON_unrecognized_witness :
    Geometry.zero.UnmarshalJSON (some (.obj lineStringMembers)) =
      .ok ⟨"LineString", zeroCoord, .nil, .nil⟩ :=
  UnmarshalJSON_unrecognized lineStringMembers "LineString" rfl (by decide) (by decide)
    (by decide)

/-! ## Properties: the service -/

theorem validateRings_total (rs : List Ring) : ∃ e, Geometry.validateRings rs = .ok e := by
  induction rs with
  | nil => exact ⟨none, rfl⟩
  | cons r rest ih =>
    rw [validateRings_cons]
    by_cases h1 : ringMalformed r = true
    · exact ⟨_, by rw [if_pos h1]⟩
    · by_cases h2 : ringHasOutOfRange r = true
      · exact ⟨_, by rw [if_neg h1, if_pos h2]⟩
      · obtain ⟨e, he⟩ := ih
        exact ⟨e, by rw [if_neg h1, if_neg h2, he]⟩

theorem Validate_total (g : Geometry) : ∃ e, g.Validate = .ok e := by
  unfold Geometry.Validate
  by_cases h1 : g.IsPoint = true
  · exact ⟨_, by rw [if_pos h1]⟩
  · by_cases h2 : g.IsPolygon = true
    · obtain ⟨e, he⟩ := validateRings_total g.PolygonCoordinates.toList
      exact ⟨e, by rw [if_neg h1, if_pos h2]; exact he⟩
    · exact ⟨_, by rw [if_neg h1, if_neg h2]⟩

/-- C8: `Validate` always returns; when it returns an error, `CreatePoint`
returns InvalidPoint and `CreateContour` and `UpdateContour` return
InvalidContours, whichever the error, and the store and the record of calls are
as before; when it returns no error, the matching store method is called once
with the entity (one call is added to the record) and what it returns is the
result. -/
theorem create_update_validation_gate {σ : Type} (s : GeometryServiceImpl σ) (w : World σ) :
    (∀ point : Point,
      (∃ e, point.Data.Validate = .ok e) ∧
      (∀ e, point.Data.Validate = .ok (some e) →
        s.CreatePoint point w = .ok ((point, some .ErrInvalidPoint), w)) ∧
      (point.Data.Validate = .ok none →
        s.CreatePoint point w =
          .ok ((s.pointRepo.CreatePoint point w.store).1,
            ⟨(s.pointRepo.CreatePoint point w.store).2,
              w.calls ++ [.CreatePoint point]⟩))) ∧
    (∀ contour : Contour,
      (∃ e, contour.Data.Validate = .ok e) ∧
      (∀ e, contour.Data.Validate = .ok (some e) →
        s.CreateContour contour w = .ok ((contour, some .ErrInvalidContours), w) ∧
        s.UpdateContour contour w = .ok ((contour, some .ErrInvalidContours), w)) ∧
      (contour.Data.Validate = .ok none →
        s.CreateContour contour w =
          .ok ((s.contourRepo.CreateContour contour w.store).1,
            ⟨(s.contourRepo.CreateContour contour w.store).2,
              w.calls ++ [.CreateContour contour]⟩) ∧
        s.UpdateContour contour w =
          .ok ((s.contourRepo.UpdateContour contour w.store).1,
            ⟨(s.contourRepo.UpdateContour contour w.store).2,
              w.calls ++ [.UpdateContour contour]⟩))) := by
  refine ⟨fun point => ⟨Validate_total _, ?_, ?_⟩, fun contour => ⟨Validate_total _, ?_, ?_⟩⟩
  · intro e he
    simp [GeometryServiceImpl.CreatePoint, GeometryServiceImpl.IsValidPoint, he, bind,
      Except.bind, pure, Except.pure]
  · intro he
    simp [GeometryServiceImpl.CreatePoint, GeometryServiceImpl.IsValidPoint, he, bind,
      Except.bind, pure, Except.pure, World.invoke]
  · intro e he
    simp [GeometryServiceImpl.CreateContour, GeometryServiceImpl.UpdateContour,
      GeometryServiceImpl.IsValidContour, he, bind, Except.bind, pure, Except.pure]
  · intro he
    simp [GeometryServiceImpl.CreateContour, GeometryServiceImpl.UpdateContour,
      GeometryServiceImpl.IsValidContour, he, bind, Except.bind, pure, Except.pure,
      World.invoke]

/-- An instance of `create_update_validation_gate` on the example store: a valid
Point is stored by one call, and a Point record carrying an open ring is
refused without a call. -/
theorem create_update_validation_gate_witness :
    (toyService .nil).CreatePoint validPointRecord toyWorld =
        .ok ((⟨1, validPointRecord.Data⟩, none), ⟨1, [.CreatePoint validPointRecord]⟩) ∧
      (toyService .nil).UpdateContour ⟨7, threeRingPolygon⟩ toyWorld =
        .ok ((⟨7, threeRingPolygon⟩, some .ErrInvalidContours), toyWorld) :=
  ⟨((create_update_validation_gate (toyService .nil) toyWorld).1 validPointRecord).2.2 rfl,
    (((create_update_validation_gate (toyService .nil) toyWorld).2
      ⟨7, threeRingPolygon⟩).2.1 .ErrInvalidContours rfl).2⟩

/-- C9 (as stated, refuted): `CreateContour` on a contour whose geometry is the
Point (30, 10) does not return InvalidContours: the store method is called with
it, and its result (no error) is returned. -/
theorem CreateContour_accepts_point :
    pointContour.Data.Typ ≠ PolygonType ∧
      (toyService .nil).CreateContour pointContour toyWorld =
        .ok ((⟨1, pointContour.Data⟩, none), ⟨1, [.CreateContour pointContour]⟩) :=
  ⟨by decide, rfl⟩

/-- C9 (amended): `CreateContour` returns InvalidContours, leaving the store and
the record of calls as before, for every contour whose Kind is neither Polygon
nor Point, and for every contour of Kind Point whose coordinates are not NaN
and do not lie in the box. -/
theorem CreateContour_rejects_non_polygon {σ : Type} (s : GeometryServiceImpl σ)
    (w : World σ) (contour : Contour) (hk : contour.Data.Typ ≠ PolygonType)
    (hp : contour.Data.Typ ≠ PointType ∨
      (coordNoNaN contour.Data.PointCoordinates = true ∧
        inBox contour.Data.PointCoordinates = false)) :
    s.CreateContour contour w = .ok ((contour, some .ErrInvalidContours), w) := by
  have hv : ∃ e, contour.Data.Validate = .ok (some e) := by
    by_cases h : contour.Data.Typ = PointType
    · rcases hp with hp | ⟨hn, hb⟩
      · exact absurd h hp
      · simp only [coordNoNaN, Bool.and_eq_true, Bool.not_eq_true'] at hn
        have hout : Geometry.coordOutOfRange contour.Data.PointCoordinates = true := by
          rw [coordOutOfRange_eq_not_inBox _ hn.1 hn.2, hb]; rfl
        exact ⟨_, by rw [Validate_point _ h, Geometry.validatePoint, if_pos hout]⟩
    · exact ⟨_, Validate_neither _ h hk⟩
  obtain ⟨e, he⟩ := hv
  simp [GeometryServiceImpl.CreateContour, GeometryServiceImpl.IsValidContour, he, bind,
    Except.bind, pure, Except.pure]

/-- Witness for `CreateContour_rejects_non_polygon`: a MultiPolygon contour, and
a contour carrying the Point (30, 200). -/
theorem CreateContour_rejects_non_polygon_witness :
    multiContour.Data.Typ ≠ PolygonType ∧
      (toyService .nil).CreateContour multiContour toyWorld =
        .ok ((multiContour, some .ErrInvalidContours), toyWorld) ∧
      inBox farPointContour.Data.PointCoordinates = false ∧
      (toyService .nil).CreateContour farPointContour toyWorld =
        .ok ((farPointContour, some .ErrInvalidContours), toyWorld) :=
  ⟨by decide, CreateContour_rejects_non_polygon (toyService .nil) toyWorld multiContour
    (by decide) (Or.inl (by decide)), rfl,
    CreateContour_rejects_non_polygon (toyService .nil) toyWorld farPointContour
    (by decide) (Or.inr ⟨rfl, rfl⟩)⟩

theorem appendRows_single (row : Contour) :
    GeometryServiceImpl.appendRows [] [row] =
      (if row.Data.IsMultiPolygon then
        GeometryServiceImpl.appendPolygons
          (if row.Data.IsPolygon && row.Data.PolygonCoordinates.len != 0 then [row] else [])
          row.Data.MultiPolygonCoordinates.toList
      else if row.Data.IsPolygon && row.Data.PolygonCoordinates.len != 0 then [row]
      else []) := by
  simp only [GeometryServiceImpl.appendRows, List.nil_append]

theorem GetContoursIntersectArea_rows {σ : Type} (s : GeometryServiceImpl σ)
    (a b : Nat) (w : World σ) (rows : Slice Contour)
    (ha : (s.contourRepo.GetContourByID a w.store).1.2 = none)
    (hb : (s.contourRepo.GetContourByID b
      (s.contourRepo.GetContourByID a w.store).2).1.2 = none)
    (hq : (s.contourRepo.GetContoursIntersectArea a b
      (s.contourRepo.GetContourByID b
        (s.contourRepo.GetContourByID a w.store).2).2).1 = (rows, none)) :
    (s.GetContoursIntersectArea a b w).1 =
      (.mk (GeometryServiceImpl.appendRows [] rows.toList), none) := by
  simp [GeometryServiceImpl.GetContoursIntersectArea, World.invoke, ha, hb, hq]

/-- C10: when both lookups and the intersection query succeed and the query
returns the single row `row`, `GetContoursIntersectArea` returns no error and:
the list holding exactly `row` when it is a Polygon with a non-empty ring list;
the empty list when it is a Polygon with an empty ring list; the empty list
when its Kind is neither Polygon nor MultiPolygon. -/
theorem GetContoursIntersectArea_single_row {σ : Type} (s : GeometryServiceImpl σ)
    (a b : Nat) (w : World σ) (rows : Slice Contour) (row : Contour)
    (ha : (s.contourRepo.GetContourByID a w.store).1.2 = none)
    (hb : (s.contourRepo.GetContourByID b
      (s.contourRepo.GetContourByID a w.store).2).1.2 = none)
    (hq : (s.contourRepo.GetContoursIntersectArea a b
      (s.contourRepo.GetContourByID b
        (s.contourRepo.GetContourByID a w.store).2).2).1 = (rows, none))
    (hrow : rows.toList = [row]) :
    (row.Data.Typ = PolygonType → row.Data.PolygonCoordinates.len ≠ 0 →
      (s.GetContoursIntersectArea a b w).1 = (.mk [row], none)) ∧
    (row.Data.Typ = PolygonType → row.Data.PolygonCoordinates.len = 0 →
      (s.GetContoursIntersectArea a b w).1 = (.mk [], none)) ∧
    (row.Data.Typ ≠ PolygonType → row.Data.Typ ≠ MultiPolygon →
      (s.GetContoursIntersectArea a b w).1 = (.mk [], none)) := by
  obtain ⟨_, _, hd3⟩ := kinds_distinct
  rw [GetContoursIntersectArea_rows s a b w rows ha hb hq, hrow, appendRows_single]
  refine ⟨?_, ?_, ?_⟩
  · intro hk hlen
    simp [Geometry.IsPolygon, Geometry.IsMultiPolygon, hk, hlen, hd3.symm]
  · intro hk hlen
    simp [Geometry.IsPolygon, Geometry.IsMultiPolygon, hk, hlen, hd3.symm]
  · intro hk hm
    simp [Geometry.IsPolygon, Geometry.IsMultiPolygon, hk, hm]

/-- Witness for `GetContoursIntersectArea_single_row`: the query returns one
Polygon row with one ring, which is returned as it is. -/
theorem GetContoursIntersectArea_single_row_witness :
    ((toyService (.mk [polygonRow])).GetContoursIntersectArea 1 2 toyWorld).1 =
      (.mk [polygonRow], none) :=
  (GetContoursIntersectArea_single_row (toyService (.mk [polygonRow])) 1 2 toyWorld
    (.mk [polygonRow]) polygonRow rfl rfl rfl rfl).1 rfl (by decide)

/-! ## Properties: decomposition of the intersection rows -/

theorem appendPolygons_eq (acc : List Contour) (ps : List Rings) :
    GeometryServiceImpl.appendPolygons acc ps = acc ++ ps.map polygonEntity := by
  induction ps generalizing acc with
  | nil => simp [GeometryServiceImpl.appendPolygons]
  | cons p ps ih =>
    rw [GeometryServiceImpl.appendPolygons, ih]
    simp [polygonEntity]

theorem appendRows_acc (acc : List Contour) (rows : List Contour) :
    GeometryServiceImpl.appendRows acc rows =
      acc ++ GeometryServiceImpl.appendRows [] rows := by
  induction rows generalizing acc with
  | nil => simp [GeometryServiceImpl.appendRows]
  | cons c rest ih =>
    simp only [GeometryServiceImpl.appendRows, appendPolygons_eq, List.nil_append]
    rw [ih]
    conv_rhs => rw [ih]
    by_cases h1 : (c.Data.IsPolygon && c.Data.PolygonCoordinates.len != 0) = true <;>
      by_cases h2 : c.Data.IsMultiPolygon = true <;> simp [h1, h2]

theorem appendRows_append (xs ys : List Contour) :
    GeometryServiceImpl.appendRows [] (xs ++ ys) =
      GeometryServiceImpl.appendRows [] xs ++ GeometryServiceImpl.appendRows [] ys := by
  induction xs with
  | nil => simp [GeometryServiceImpl.appendRows]
  | cons c rest ih =>
    show GeometryServiceImpl.appendRows [] (c :: (rest ++ ys)) = _
    rw [GeometryServiceImpl.appendRows, appendRows_acc _ (rest ++ ys), ih]
    conv_rhs => rw [GeometryServiceImpl.appendRows, appendRows_acc _ rest]
    simp only [List.append_assoc]

theorem appendRows_multi (row : Contour) (hk : row.Data.Typ = MultiPolygon) :
    GeometryServiceImpl.appendRows [] [row] =
      row.Data.MultiPolygonCoordinates.toList.map polygonEntity := by
  obtain ⟨_, _, hd3⟩ := kinds_distinct
  rw [appendRows_single, appendPolygons_eq]
  simp [Geometry.IsPolygon, Geometry.IsMultiPolygon, hk, hd3]

/-- C11: when both lookups and the query succeed, a raw row of Kind
MultiPolygon contributes, at its place in the output, exactly one entity for
each of its constituent polygons, in their order: as many entities as
polygons, the i-th being of Kind Polygon with the i-th polygon as its ring
list and identity zero, whatever the identity of the row. -/
theorem GetContoursIntersectArea_multipolygon_row {σ : Type} (s : GeometryServiceImpl σ)
    (a b : Nat) (w : World σ) (rows : Slice Contour) (pre : List Contour) (row : Contour)
    (post : List Contour)
    (ha : (s.contourRepo.GetContourByID a w.store).1.2 = none)
    (hb : (s.contourRepo.GetContourByID b
      (s.contourRepo.GetContourByID a w.store).2).1.2 = none)
    (hq : (s.contourRepo.GetContoursIntersectArea a b
      (s.contourRepo.GetContourByID b
        (s.contourRepo.GetContourByID a w.store).2).2).1 = (rows, none))
    (hrows : rows.toList = pre ++ row :: post) (hk : row.Data.Typ = MultiPolygon) :
    (s.GetContoursIntersectArea a b w).1 =
        (.mk (GeometryServiceImpl.appendRows [] pre ++
          row.Data.MultiPolygonCoordinates.toList.map polygonEntity ++
          GeometryServiceImpl.appendRows [] post), none) ∧
      (row.Data.MultiPolygonCoordinates.toList.map polygonEntity).length =
        row.Data.MultiPolygonCoordinates.len ∧
      (∀ i p, row.Data.MultiPolygonCoordinates.toList.get? i = some p →
        (row.Data.MultiPolygonCoordinates.toList.map polygonEntity).get? i =
          some ⟨0, ⟨"Polygon", zeroCoord, p, .nil⟩⟩) := by
  refine ⟨?_, by simp [Slice.len], ?_⟩
  · rw [GetContoursIntersectArea_rows s a b w rows ha hb hq, hrows, appendRows_append,
      show row :: post = [row] ++ post from rfl, appendRows_append, appendRows_multi row hk,
      List.append_assoc]
  · intro i p hp
    simp only [List.get?_eq_getElem?] at hp
    simp [hp, polygonEntity]

/-- Witness for `GetContoursIntersectArea_multipolygon_row`: one MultiPolygon
row with identity 5 and two polygons gives two Polygon entities with identity
zero, in the order of the polygons. -/
theorem GetContoursIntersectArea_multipolygon_row_witness :
    ((toyService (.mk [multiRow])).GetContoursIntersectArea 1 2 toyWorld).1 =
      (.mk [⟨0, ⟨"Polygon", zeroCoord, .mk [closedRing], .nil⟩⟩,
        ⟨0, ⟨"Polygon", zeroCoord, .mk [farRing], .nil⟩⟩], none) :=
  (GetContoursIntersectArea_multipolygon_row (toyService (.mk [multiRow])) 1 2 toyWorld
    (.mk [multiRow]) [] multiRow [] rfl rfl rfl rfl rfl).1

/-- C12: the loop over the rows distributes over concatenation: the output for
`xs ++ ys` is the output for `xs` followed by the output for `ys`; hence the
output for a row list is the concatenation, in row order, of the outputs of
its single rows. -/
theorem appendRows_preserves_row_order (xs ys : List Contour) :
    GeometryServiceImpl.appendRows [] (xs ++ ys) =
        GeometryServiceImpl.appendRows [] xs ++ GeometryServiceImpl.appendRows [] ys ∧
      GeometryServiceImpl.appendRows [] xs =
        (xs.map (fun row => GeometryServiceImpl.appendRows [] [row])).flatten := by
  refine ⟨appendRows_append xs ys, ?_⟩
  induction xs with
  | nil => rfl
  | cons c rest ih =>
    rw [show c :: rest = [c] ++ rest from rfl, appendRows_append, ih]
    simp

/-- C13 (as stated, refuted): the query returns one Polygon row with identity
1 (the row of the service test), and the output holds that row with its
identity 1, not zero. -/
theorem GetContoursIntersectArea_keeps_row_identity :
    ((toyService (.mk [identifiedRow])).GetContoursIntersectArea 1 2 toyWorld).1 =
        (.mk [identifiedRow], none) ∧ identifiedRow.ID = 1 :=
  ⟨rfl, rfl⟩

theorem appendRows_mem (rows : List Contour) (c : Contour)
    (hc : c ∈ GeometryServiceImpl.appendRows [] rows) :
    c.ID = 0 ∨ (c ∈ rows ∧ c.Data.Typ = PolygonType) := by
  induction rows with
  | nil => simp [GeometryServiceImpl.appendRows] at hc
  | cons r rest ih =>
    rw [show r :: rest = [r] ++ rest from rfl, appendRows_append, List.mem_append] at hc
    rcases hc with hc | hc
    · rw [appendRows_single, appendPolygons_eq] at hc
      by_cases h1 : (r.Data.IsPolygon && r.Data.PolygonCoordinates.len != 0) = true
      · have hp : r.Data.Typ = PolygonType := by
          simp only [Bool.and_eq_true, Geometry.IsPolygon, beq_iff_eq] at h1
          exact h1.1
        by_cases h2 : r.Data.IsMultiPolygon = true
        · simp only [h1, h2, if_true, List.mem_append, List.mem_singleton, List.mem_map] at hc
          rcases hc with rfl | ⟨p, _, rfl⟩
          · exact Or.inr ⟨List.mem_cons_self _ _, hp⟩
          · exact Or.inl rfl
        · simp only [h1, h2, if_true, List.mem_singleton] at hc
          simp only [Bool.false_eq_true, if_false, List.mem_singleton] at hc
          subst hc
          exact Or.inr ⟨List.mem_cons_self _ _, hp⟩
      · by_cases h2 : r.Data.IsMultiPolygon = true
        · simp only [h1, h2, if_true, if_false, List.nil_append, List.mem_map] at hc
          simp only [Bool.false_eq_true, if_false, List.nil_append, List.mem_map] at hc
          obtain ⟨p, _, rfl⟩ := hc
          exact Or.inl rfl
        · simp [h1, h2] at hc
    · rcases ih hc with h | ⟨h, hp⟩
      · exact Or.inl h
      · exact Or.inr ⟨List.mem_cons_of_mem _ h, hp⟩

/-- C13 (amended): when both lookups and the query succeed, every entity of
the output either has identity zero or is one of the raw Polygon rows, with the
identity the query gave it; so every entity of the output has identity zero
when every raw row has. -/
theorem GetContoursIntersectArea_identities {σ : Type} (s : GeometryServiceImpl σ)
    (a b : Nat) (w : World σ) (rows : Slice Contour)
    (ha : (s.contourRepo.GetContourByID a w.store).1.2 = none)
    (hb : (s.contourRepo.GetContourByID b
      (s.contourRepo.GetContourByID a w.store).2).1.2 = none)
    (hq : (s.contourRepo.GetContoursIntersectArea a b
      (s.contourRepo.GetContourByID b
        (s.contourRepo.GetContourByID a w.store).2).2).1 = (rows, none)) :
    (∀ c ∈ (s.GetContoursIntersectArea a b w).1.1.toList,
        c.ID = 0 ∨ (c ∈ rows.toList ∧ c.Data.Typ = PolygonType)) ∧
      ((∀ r ∈ rows.toList, r.ID = 0) →
        ∀ c ∈ (s.GetContoursIntersectArea a b w).1.1.toList, c.ID = 0) := by
  rw [GetContoursIntersectArea_rows s a b w rows ha hb hq]
  refine ⟨fun c hc => appendRows_mem _ c hc, fun hz c hc => ?_⟩
  rcases appendRows_mem _ c hc with h | ⟨h, _⟩
  · exact h
  · exact hz c h

/-- Witness for `GetContoursIntersectArea_identities`: a Polygon row with
identity zero gives an output whose entities all have identity zero. -/
theorem GetContoursIntersectArea_identities_witness :
    polygonRow.ID = 0 ∧
      ∀ c ∈ ((toyService (.mk [polygonRow])).GetContoursIntersectArea 1 2
        toyWorld).1.1.toList, c.ID = 0 :=
  ⟨rfl, (GetContoursIntersectArea_identities (toyService (.mk [polygonRow])) 1 2 toyWorld
    (.mk [polygonRow]) rfl rfl rfl).2 (by decide)⟩

/-! ## Properties: lookups and not-found -/

/-- C14: `GetContoursIntersectArea` looks up contour A first.  If that lookup
returns an error, the error is returned with a nil result and the only call
made is this lookup.  If it succeeds and the lookup of B returns an error, that
error is returned with a nil result and the calls made are the two lookups.
If both succeed, the calls made are the two lookups followed by the
intersection query. -/
theorem GetContoursIntersectArea_lookups_first {σ : Type} (s : GeometryServiceImpl σ)
    (a b : Nat) (w : World σ) :
    (∀ e, (s.contourRepo.GetContourByID a w.store).1.2 = some e →
      s.GetContoursIntersectArea a b w =
        ((.nil, some e),
          ⟨(s.contourRepo.GetContourByID a w.store).2, w.calls ++ [.GetContourByID a]⟩)) ∧
    ((s.contourRepo.GetContourByID a w.store).1.2 = none →
      ∀ e, (s.contourRepo.GetContourByID b
          (s.contourRepo.GetContourByID a w.store).2).1.2 = some e →
        s.GetContoursIntersectArea a b w =
          ((.nil, some e),
            ⟨(s.contourRepo.GetContourByID b (s.contourRepo.GetContourByID a w.store).2).2,
              w.calls ++ [.GetContourByID a, .GetContourByID b]⟩)) ∧
    ((s.contourRepo.GetContourByID a w.store).1.2 = none →
      (s.contourRepo.GetContourByID b
          (s.contourRepo.GetContourByID a w.store).2).1.2 = none →
        (s.GetContoursIntersectArea a b w).2 =
          ⟨(s.contourRepo.GetContoursIntersectArea a b
              (s.contourRepo.GetContourByID b
                (s.contourRepo.GetContourByID a w.store).2).2).2,
            w.calls ++ [.GetContourByID a, .GetContourByID b,
              .GetContoursIntersectArea a b]⟩) := by
  refine ⟨?_, ?_, ?_⟩
  · intro e he
    simp [GeometryServiceImpl.GetContoursIntersectArea, World.invoke, he]
  · intro ha e he
    simp [GeometryServiceImpl.GetContoursIntersectArea, World.invoke, ha, he]
  · intro ha hb
    simp only [GeometryServiceImpl.GetContoursIntersectArea, World.invoke, ha, hb,
      Option.isSome_none, Bool.false_eq_true, if_false, List.append_assoc,
      List.singleton_append]
    split <;> rfl

/-- An instance of `GetContoursIntersectArea_lookups_first` on the example
database holding contour 1 only: the lookup of contour 2 fails, its error is
returned with a nil result, and no intersection query is recorded. -/
theorem GetContoursIntersectArea_lookups_first_witness :
    (serviceOver tableDB).GetContoursIntersectArea 1 2 oneContourWorld =
      ((.nil, some .ErrContourNotFound),
        ⟨[⟨1, closedPolygon⟩], [.GetContourByID 1, .GetContourByID 2]⟩) :=
  (GetContoursIntersectArea_lookups_first (serviceOver tableDB) 1 2 oneContourWorld).2.1
    rfl .ErrContourNotFound rfl

/-- C15: when the scan reports no error, `GetContourByID` returns a nil
contour and ErrContourNotFound if the scanned row has identity zero, and the
row with no error otherwise; `GetPointByID` returns a nil point and gorm's
ErrRecordNotFound if the scanned row has identity zero, and the row with no
error otherwise; the geometry of the row plays no part. -/
theorem GetByID_not_found_iff_zero_identity {σ : Type} (db : DB σ) (id : Nat) (st : σ) :
    (∀ row : Contour,
      (db.ScanContour (getContourQuery ⟨0, 0, id⟩).1 (getContourQuery ⟨0, 0, id⟩).2 st).1 =
          (row, none) →
        (row.ID = 0 →
          (ContourRepositoryImpl.GetContourByID db id st).1 =
            (none, some .ErrContourNotFound)) ∧
        (row.ID ≠ 0 →
          (ContourRepositoryImpl.GetContourByID db id st).1 = (some row, none))) ∧
    (∀ row : Point,
      (db.ScanPoint (getPointQuery ⟨0, 0, id⟩).1 (getPointQuery ⟨0, 0, id⟩).2 st).1 =
          (row, none) →
        (row.ID = 0 →
          (PointRepositoryImpl.GetPointByID db id st).1 =
            (none, some .gormRecordNotFound)) ∧
        (row.ID ≠ 0 →
          (PointRepositoryImpl.GetPointByID db id st).1 = (some row, none))) := by
  refine ⟨fun row h => ⟨fun h0 => ?_, fun h0 => ?_⟩, fun row h => ⟨fun h0 => ?_, fun h0 => ?_⟩⟩
  · simp [ContourRepositoryImpl.GetContourByID, h, h0]
  · simp [ContourRepositoryImpl.GetContourByID, h, h0]
  · simp [PointRepositoryImpl.GetPointByID, h, h0]
  · simp [PointRepositoryImpl.GetPointByID, h, h0]

/-- An instance of `GetByID_not_found_iff_zero_identity` on the example
database holding contour 1 only: contour 1 is found, contour 2 is not. -/
theorem GetByID_not_found_iff_zero_identity_witness :
    (ContourRepositoryImpl.GetContourByID tableDB 1 [⟨1, closedPolygon⟩]).1 =
        (some ⟨1, closedPolygon⟩, none) ∧
      (ContourRepositoryImpl.GetContourByID tableDB 2 [⟨1, closedPolygon⟩]).1 =
        (none, some .ErrContourNotFound) :=
  ⟨((GetByID_not_found_iff_zero_identity tableDB 1 [⟨1, closedPolygon⟩]).1
      ⟨1, closedPolygon⟩ rfl).2 (by decide),
    ((GetByID_not_found_iff_zero_identity tableDB 2 [⟨1, closedPolygon⟩]).1
      ⟨0, Geometry.zero⟩ rfl).1 rfl⟩

/-- C16 (the code at the failing input): when the path parameter is a number and
the scan for it leaves a row with identity zero, the repository returns
ErrContourNotFound, which is not ErrNotFound, and the handler answers with
status 500 (internal server error), not 404. -/
theorem GetContourByID_absent_is_server_error {σ : Type} (db : DB σ) (host : String)
    (idParam : String) (id : Int) (w : World σ) (row : Contour)
    (hid : Atoi idParam = .ok id)
    (hscan : (db.ScanContour (getContourQuery ⟨0, 0, uintOfInt id⟩).1
      (getContourQuery ⟨0, 0, uintOfInt id⟩).2 w.store).1 = (row, none))
    (hzero : row.ID = 0) :
    ((⟨serviceOver db, host⟩ : GeometryHandler σ).GetContourByID idParam w).1 =
        ⟨StatusInternalServerError, .error .ErrContourNotFound⟩ ∧
      errorsIs .ErrContourNotFound .ErrNotFound = false := by
  refine ⟨?_, by decide⟩
  simp [GeometryHandler.GetContourByID, hid, GeometryServiceImpl.GetContourByID, World.invoke,
    serviceOver, ContourRepositoryImpl.new, ContourRepositoryImpl.GetContourByID, hscan, hzero,
    errorsIs]

/-- Witness for `GetContourByID_absent_is_server_error`: a request for contour
999999 on the example database holding contour 1 only. -/
theorem GetContourByID_absent_is_server_error_witness :
    (tableHandler.GetContourByID "999999" oneContourWorld).1 =
      ⟨500, .error .ErrContourNotFound⟩ :=
  (GetContourByID_absent_is_server_error tableDB "" "999999" 999999 oneContourWorld
    ⟨0, Geometry.zero⟩ rfl rfl rfl).1

/-- C17 (the code at the failing input): on a contour that passes `Validate`,
`UpdateContour` of the service over the repository makes one call, the
repository's `UpdateContour`, which is `db.Save`, and returns what it returns:
no lookup of the target identity is made. -/
theorem UpdateContour_is_save {σ : Type} (db : DB σ) (contour : Contour) (w : World σ)
    (hv : contour.Data.Validate = .ok none) :
    (serviceOver db).UpdateContour contour w =
      .ok ((db.SaveContour contour w.store).1,
        ⟨(db.SaveContour contour w.store).2, w.calls ++ [.UpdateContour contour]⟩) := by
  simp [GeometryServiceImpl.UpdateContour, GeometryServiceImpl.IsValidContour, hv, bind,
    Except.bind, pure, Except.pure, World.invoke, serviceOver, ContourRepositoryImpl.new]

/-- Witness for `UpdateContour_is_save`: on the example database without any
contour, whose `Save` inserts when no row has the key as gorm's does, updating
contour 7 returns no error and leaves a row 7 in the table. -/
theorem UpdateContour_is_save_witness :
    (emptyWorld.store.scanByID 7).ID = 0 ∧
      (serviceOver tableDB).UpdateContour ⟨7, closedPolygon⟩ emptyWorld =
        .ok ((⟨7, closedPolygon⟩, none),
          ⟨[⟨7, closedPolygon⟩], [.UpdateContour ⟨7, closedPolygon⟩]⟩) :=
  ⟨rfl, UpdateContour_is_save tableDB ⟨7, closedPolygon⟩ emptyWorld rfl⟩

/-! ## Properties: store literals and scanning -/

theorem appendPointTexts_eq (fmt : F64 → String) (acc : List String) (cs : List Coord) :
    Geometry.appendPointTexts fmt acc cs =
      acc ++ cs.map (fun c => fmt c.1 ++ " " ++ fmt c.2) := by
  induction cs generalizing acc with
  | nil => simp [Geometry.appendPointTexts]
  | cons c cs ih =>
    rw [Geometry.appendPointTexts, ih]
    simp

theorem appendRingTexts_eq (fmt : F64 → String) (acc : List String) (rs : List Ring) :
    Geometry.appendRingTexts fmt acc rs = acc ++ rs.map (referenceRing fmt) := by
  induction rs generalizing acc with
  | nil => simp [Geometry.appendRingTexts]
  | cons r rs ih =>
    rw [Geometry.appendRingTexts, ih, appendPointTexts_eq]
    simp [referenceRing]

/-- C18: for every geometry and every coordinate formatting `fmt`, `GormValue`
is the reference rendering: for Kind Polygon the constructor
`ST_PolygonFromText(?)` with the one argument `POLYGON(` rings `)`, the rings
joined by commas, each ring its entries `lon lat` joined by commas in
parentheses; for Kind Point the constructor `ST_PointFromText(?)` with the one
argument `POINT(lon lat)`; for any other Kind the empty expression. -/
theorem GormValue_eq_reference (fmt : F64 → String) (g : Geometry) :
    g.GormValue fmt = referenceLiteral fmt g := by
  unfold Geometry.GormValue referenceLiteral Geometry.polygonCoordinatesToString
  simp only [Geometry.IsPolygon, Geometry.IsPoint, beq_iff_eq, appendRingTexts_eq,
    List.nil_append]

/-- An instance of `GormValue_eq_reference`: a polygon of two rings, with a
formatting that writes every number as `x`. -/
theorem GormValue_eq_reference_witness :
    Geometry.GormValue (fun _ => "x") ⟨PolygonType, zeroCoord, .mk [closedRing, .nil], .nil⟩ =
      ⟨"ST_PolygonFromText(?)", .mk ["POLYGON((x x,x x,x x,x x),())"]⟩ :=
  (GormValue_eq_reference (fun _ => "x")
    ⟨PolygonType, zeroCoord, .mk [closedRing, .nil], .nil⟩).trans rfl

/-- C19: `Scan` on a nil source returns no error and leaves the receiver the
zero geometry (empty Kind, zero Point pair, nil ring list, nil polygon list),
whatever it held before. -/
theorem Scan_nil (parse : String → JsonText) (g : Geometry) :
    Geometry.Scan parse g .nil = .ok Geometry.zero ∧
      Geometry.zero = ⟨"", (F64.ofInt 0, F64.ofInt 0), .nil, .nil⟩ :=
  ⟨rfl, rfl⟩

/-- C20 (as stated, refuted): `Scan` on the empty string, and on the empty byte
sequence, returns the decoder's syntax error, whatever the reading of non-empty
text is; it does not return the zero geometry. -/
theorem Scan_empty_text_fails :
    (∀ parse : String → JsonText,
      Geometry.Scan parse Geometry.zero (.string "") = .error .jsonSyntax) ∧
    (∀ parse : String → JsonText,
      Geometry.Scan parse Geometry.zero (.bytes "") = .error .jsonSyntax) :=
  ⟨fun _ => rfl, fun _ => rfl⟩

/-- C20 (amended): `Scan` on empty text, a string or a byte sequence, returns
the JSON decoder's syntax error, for every receiver and every reading of
non-empty text. -/
theorem Scan_on_empty_text_is_syntax_error (parse : String → JsonText) (g : Geometry) :
    Geometry.Scan parse g (.string "") = .error .jsonSyntax ∧
      Geometry.Scan parse g (.bytes "") = .error .jsonSyntax :=
  ⟨rfl, rfl⟩

/-! ## Properties: pagination -/

theorem wrapInt_of_fits (x : Int) (h1 : -(2 ^ 63) ≤ x) (h2 : x < 2 ^ 63) : wrapInt x = x := by
  unfold wrapInt
  omega

/-- C21 (as stated, refuted): the page parameter 922337203685477581 parses as
an integer, yet the offset returned is -9223372036854775806, not that number
times 10: the product does not fit an `int` and wraps. -/
theorem parseOffsetLimit_offset_wraps :
    Atoi "922337203685477581" = .ok hugePage ∧
      localHandler.parseOffsetLimit (some "922337203685477581") =
        (hugePage, -9223372036854775806, 10, none) ∧
      hugePage * 10 = 9223372036854775810 :=
  ⟨rfl, rfl, rfl⟩

/-- C21 (amended): for a page parameter that parses as the integer `n` with
`10 n` inside the range of `int`, `parseOffsetLimit` returns page `n`, offset
`10 n`, limit 10 and no error; without a page parameter it returns page 0,
offset 0, limit 10; for a page parameter that does not parse it returns the
parse error. -/
theorem parseOffsetLimit_spec {σ : Type} (h : GeometryHandler σ) :
    (∀ s n, Atoi s = .ok n → -(2 ^ 63) ≤ n * 10 → n * 10 < 2 ^ 63 →
      h.parseOffsetLimit (some s) = (n, n * 10, 10, none)) ∧
    h.parseOffsetLimit none = (0, 0, 10, none) ∧
    (∀ s e, Atoi s = .error e → h.parseOffsetLimit (some s) = (0, 0, 0, some e)) := by
  refine ⟨?_, rfl, ?_⟩
  · intro s n hs h1 h2
    simp [GeometryHandler.parseOffsetLimit, hs, DefaultLimit, wrapInt_of_fits _ h1 h2]
  · intro s e hs
    simp [GeometryHandler.parseOffsetLimit, hs]

/-- An instance of `parseOffsetLimit_spec`: the page parameter 1 of the handler
tests gives offset 10 and limit 10, and the parameter `a` gives an error. -/
theorem parseOffsetLimit_spec_witness :
    localHandler.parseOffsetLimit (some "1") = (1, 10, 10, none) ∧
      localHandler.parseOffsetLimit (some "a") = (0, 0, 0, some .strconvSyntax) :=
  ⟨(parseOffsetLimit_spec localHandler).1 "1" 1 rfl (by decide) (by decide),
    (parseOffsetLimit_spec localHandler).2.2 "a" .strconvSyntax rfl⟩

/-- C22 (as stated, refuted): the page parameter -1 is accepted: no error is
returned, the page is -1 and the offset is -10. -/
theorem parseOffsetLimit_accepts_negative :
    localHandler.parseOffsetLimit (some "-1") = (-1, -10, 10, none) :=
  rfl

/-- C22 (amended): a page parameter that parses as the integer `n` is accepted
whatever the sign of `n`: no error is returned and the page is `n`; and when
`10 n` fits an `int`, the offset is `10 n`, so it is negative exactly when `n`
is negative. -/
theorem parseOffsetLimit_offset_sign {σ : Type} (h : GeometryHandler σ) (s : String)
    (n : Int) (hs : Atoi s = .ok n) :
    (h.parseOffsetLimit (some s)).2.2.2 = none ∧ (h.parseOffsetLimit (some s)).1 = n ∧
      (-(2 ^ 63) ≤ n * 10 → n * 10 < 2 ^ 63 →
        (h.parseOffsetLimit (some s)).2.1 = n * 10 ∧
        ((h.parseOffsetLimit (some s)).2.1 < 0 ↔ n < 0)) := by
  simp only [GeometryHandler.parseOffsetLimit, Option.getD_some, hs, DefaultLimit]
  refine ⟨trivial, trivial, ?_⟩
  intro h0 h1
  rw [wrapInt_of_fits _ h0 h1]
  exact ⟨rfl, by omega⟩

/-- Witness for `parseOffsetLimit_offset_sign`: the page parameter -1 is
accepted with page -1 and the negative offset -10; the page parameter 1 gives
the offset 10. -/
theorem parseOffsetLimit_offset_sign_witness :
    (localHandler.parseOffsetLimit (some "-1")).2.2.2 = none ∧
      (localHandler.parseOffsetLimit (some "-1")).1 = -1 ∧
      (localHandler.parseOffsetLimit (some "-1")).2.1 = -1 * 10 ∧
      (localHandler.parseOffsetLimit (some "1")).2.1 = 1 * 10 :=
  ⟨(parseOffsetLimit_offset_sign localHandler "-1" (-1) rfl).1,
    (parseOffsetLimit_offset_sign localHandler "-1" (-1) rfl).2.1,
    ((parseOffsetLimit_offset_sign localHandler "-1" (-1) rfl).2.2 (by decide)
      (by decide)).1,
    ((parseOffsetLimit_offset_sign localHandler "1" 1 rfl).2.2 (by decide) (by decide)).1⟩

/-- C23 (as stated, refuted): for the page 9223372036854775807, the largest
`int`, `buildNextURL` gives the link to page -9223372036854775808, not to
page 9223372036854775808: the sum wraps. -/
theorem buildNextURL_wraps_at_maxInt :
    0 ≤ maxInt ∧
      localHandler.buildNextURL "/points" maxInt =
        some "http://localhost/points?page=-9223372036854775808" ∧
      SprintInt (maxInt + 1) = "9223372036854775808" :=
  ⟨by decide, rfl, rfl⟩

/-- C23 (amended): for every path and every page `n` with `0 <= n` below the
largest `int`, `buildNextURL` returns a link, the host followed by the path,
`?page=` and the decimal text of `n + 1`; the number of results is no input
of it. -/
theorem buildNextURL_spec {σ : Type} (h : GeometryHandler σ) (path : String) (n : Int)
    (h0 : 0 ≤ n) (h1 : n < 2 ^ 63 - 1) :
    h.buildNextURL path n = some (h.host ++ path ++ "?page=" ++ SprintInt (n + 1)) := by
  unfold GeometryHandler.buildNextURL
  rw [wrapInt_of_fits _ (by omega) (by omega)]

/-- Witness for `buildNextURL_spec`: page 1 of the points list links to page 2. -/
theorem buildNextURL_spec_witness :
    localHandler.buildNextURL "/points" 1 = some "http://localhost/points?page=2" :=
  (buildNextURL_spec localHandler "/points" 1 (by decide) (by decide)).trans rfl

/-- C24: for every path and every page `n` of type `int` with `0 <= n`,
`buildPreviousURL` returns nothing when `n = 0`, and otherwise the host
followed by the path, `?page=` and the decimal text of `n - 1`. -/
theorem buildPreviousURL_spec {σ : Type} (h : GeometryHandler σ) (path : String) (n : Int)
    (h0 : 0 ≤ n) (h1 : n < 2 ^ 63) :
    (n = 0 → h.buildPreviousURL path n = none) ∧
      (n ≠ 0 →
        h.buildPreviousURL path n =
          some (h.host ++ path ++ "?page=" ++ SprintInt (n - 1))) := by
  unfold GeometryHandler.buildPreviousURL
  rw [wrapInt_of_fits _ (by omega) (by omega)]
  constructor
  · intro hn
    subst hn
    rfl
  · intro hn
    have : ¬ (n - 1 < 0) := by omega
    simp [this]

/-- Witness for `buildPreviousURL_spec`: page 1 links to page 0, and page 0 has
no previous link. -/
theorem buildPreviousURL_spec_witness :
    localHandler.buildPreviousURL "/contours" 1 = some "http://localhost/contours?page=0" ∧
      localHandler.buildPreviousURL "/contours" 0 = none :=
  ⟨((buildPreviousURL_spec localHandler "/contours" 1 (by decide) (by decide)).2
      (by decide)).trans rfl,
    (buildPreviousURL_spec localHandler "/contours" 0 (by decide) (by decide)).1 rfl⟩

/-! ## Properties: entity encoding and the writing handlers -/

/-- C25 (as stated, refuted): the Point record without identity is written
with the member `id` (holding 0), not without it; and a Contour record whose
geometry holds a NaN is not written at all. -/
theorem marshalPoint_keeps_zero_id :
    freshPoint.ID = 0 ∧
      marshalPoint freshPoint =
        .ok (.obj [("id", .num 0),
          ("data", .obj [("type", .str "Point"), ("coordinates", .arr [.num 30, .num 10])])]) ∧
      marshalContour ⟨1, nanPolygon⟩ = .error .jsonUnsupportedValue :=
  ⟨rfl, rfl, rfl⟩

/-- C25 (amended): for a Contour record whose geometry holds finite coordinates
only, the encoding is an object with the member `data`, preceded by the member
`id` holding the identity exactly when the identity is not zero; for such a
Point record the encoding always has the member `id` holding the identity (0
when unassigned), then the member `data`. -/
theorem marshal_entity_shape (id : Nat) (g : Geometry) (hfin : payloadFinite g = true) :
    (id = 0 →
      marshalContour ⟨id, g⟩ =
        .ok (.obj [("data", .obj [("type", .str g.Typ), ("coordinates", payloadJson g)])])) ∧
    (id ≠ 0 →
      marshalContour ⟨id, g⟩ =
        .ok (.obj [("id", .num id),
          ("data", .obj [("type", .str g.Typ), ("coordinates", payloadJson g)])])) ∧
    marshalPoint ⟨id, g⟩ =
      .ok (.obj [("id", .num id),
        ("data", .obj [("type", .str g.Typ), ("coordinates", payloadJson g)])]) := by
  refine ⟨fun h0 => ?_, fun h0 => ?_, ?_⟩
  · simp [marshalContour, MarshalJSON_finite g hfin, h0, bind, Except.bind]
  · simp [marshalContour, MarshalJSON_finite g hfin, h0, bind, Except.bind]
  · simp [marshalPoint, MarshalJSON_finite g hfin, bind, Except.bind]

/-- Witness for `marshal_entity_shape`: the contour of the handler test is
written without `id` when it has no identity. -/
theorem marshal_entity_shape_witness :
    marshalContour ⟨0, closedPolygon⟩ =
      .ok (.obj [("data",
        .obj [("type", .str "Polygon"), ("coordinates", payloadJson closedPolygon)])]) :=
  (marshal_entity_shape 0 closedPolygon rfl).1 rfl

/-- C26 (as stated, refuted): for a Point request with latitude 200 the service
returns InvalidPoint and the handler answers with status 500, a server error. -/
theorem CreatePoint_handler_invalid_is_500 :
    (localHandler.geometryService.CreatePoint farPointRequest.ToModel emptyWorld) =
        .ok ((farPointRequest.ToModel, some .ErrInvalidPoint), emptyWorld) ∧
      localHandler.CreatePoint (.ok farPointRequest) emptyWorld =
        .ok (⟨500, .error .ErrInvalidPoint⟩, emptyWorld) :=
  ⟨rfl, rfl⟩

/-- C26 (amended): whenever the service's `CreatePoint`, `CreateContour` or
`UpdateContour` returns a validation error (InvalidPoint, InvalidContours), the
handler of that name answers with status 500 and that error. -/
theorem handlers_report_validation_as_500 {σ : Type} (h : GeometryHandler σ) (w : World σ) :
    (∀ req p w2,
      h.geometryService.CreatePoint req.ToModel w = .ok ((p, some .ErrInvalidPoint), w2) →
      h.CreatePoint (.ok req) w =
        .ok (⟨StatusInternalServerError, .error .ErrInvalidPoint⟩, w2)) ∧
    (∀ req c w2,
      h.geometryService.CreateContour req.ToModel w =
        .ok ((c, some .ErrInvalidContours), w2) →
      h.CreateContour (.ok req) w =
        .ok (⟨StatusInternalServerError, .error .ErrInvalidContours⟩, w2)) ∧
    (∀ idParam id req c w2, Atoi idParam = .ok id →
      h.geometryService.UpdateContour ⟨uintOfInt id, req.ToModel.Data⟩ w =
        .ok ((c, some .ErrInvalidContours), w2) →
      h.UpdateContour idParam (.ok req) w =
        .ok (⟨StatusInternalServerError, .error .ErrInvalidContours⟩, w2)) := by
  refine ⟨?_, ?_, ?_⟩
  · intro req p w2 hs
    simp [GeometryHandler.CreatePoint, hs, bind, Except.bind]
  · intro req c w2 hs
    simp [GeometryHandler.CreateContour, hs, bind, Except.bind]
  · intro idParam id req c w2 hid hs
    simp [GeometryHandler.UpdateContour, hid, hs, bind, Except.bind, errorsIs]

/-- An instance of `handlers_report_validation_as_500`: updating contour 1 with
an open ring is answered with status 500. -/
theorem handlers_report_validation_as_500_witness :
    localHandler.UpdateContour "1" (.ok openContourRequest) emptyWorld =
      .ok (⟨500, .error .ErrInvalidContours⟩, emptyWorld) :=
  (handlers_report_validation_as_500 localHandler emptyWorld).2.2 "1" 1 openContourRequest
    ⟨1, openContourRequest.Data⟩ emptyWorld rfl rfl

/-! ## Properties: safety, non-interference, shared validation, empty polygons -/

/-- C27: `Validate` returns a result, nil or an error, for every geometry and
never faults; a ring with fewer than 2 entries is refused before any entry is
read, and in a ring with at least 2 entries both reads, of the first and of the
last entry, are in range. -/
theorem Validate_never_faults (g : Geometry) :
    (∃ e, g.Validate = .ok e) ∧
      (∀ (r : Ring) (rest : List Ring), r.len < 2 →
        Geometry.validateRings (r :: rest) = .ok (some .ErrInvalidContours)) ∧
      (∀ r : Ring, 2 ≤ r.len → ∃ a b, r.index 0 = .ok a ∧ r.index (r.len - 1) = .ok b) := by
  refine ⟨Validate_total g, ?_, ?_⟩
  · intro r rest hlen
    simp [Geometry.validateRings, hlen]
  · intro r hlen
    obtain ⟨a, l, hl⟩ : ∃ a l, r.toList = a :: l := by
      cases h : r.toList with
      | nil => simp [Slice.len, h] at hlen
      | cons a l => exact ⟨a, l, rfl⟩
    obtain ⟨b, hb⟩ : ∃ b, r.toList.getLast? = some b := by
      rw [hl]; exact ⟨(a :: l).getLast (by simp), List.getLast?_eq_getLast _ _⟩
    exact ⟨a, b, Slice.index_zero r a l hl, Slice.index_last r b hb⟩

/-- C28: two geometries of one Kind that agree on the payload slot of that
Kind have the same `Validate` result, the same `MarshalJSON` result and the
same `GormValue`, whatever their other slots hold. -/
theorem own_payload_decides (g1 g2 : Geometry) (h : sameOwnPayload g1 g2) :
    g1.Validate = g2.Validate ∧ g1.MarshalJSON = g2.MarshalJSON ∧
      ∀ fmt : F64 → String, g1.GormValue fmt = g2.GormValue fmt := by
  obtain ⟨hk, hp, hq, hm⟩ := h
  obtain ⟨hd1, hd2, hd3⟩ := kinds_distinct
  have hd1s := hd1.symm
  refine ⟨?_, ?_, ?_⟩
  · unfold Geometry.Validate Geometry.validatePoint Geometry.validatePolygon
    simp only [Geometry.IsPoint, Geometry.IsPolygon, beq_iff_eq, ← hk]
    by_cases h1 : g1.Typ = PointType
    · simp [h1, hp h1]
    · by_cases h2 : g1.Typ = PolygonType
      · simp [h2, hq h2, hd1]
      · simp [h1, h2]
  · unfold Geometry.MarshalJSON
    simp only [← hk]
    by_cases h1 : g1.Typ = PointType
    · simp [h1, hp h1]
    · by_cases h2 : g1.Typ = PolygonType
      · simp [h2, hq h2, hd1]
      · by_cases h3 : g1.Typ = MultiPolygon
        · simp [h3, hm h3, hd2, hd3]
        · simp [h1, h2, h3]
  · intro fmt
    unfold Geometry.GormValue Geometry.polygonCoordinatesToString
    simp only [Geometry.IsPoint, Geometry.IsPolygon, beq_iff_eq, ← hk]
    by_cases h2 : g1.Typ = PolygonType
    · simp [h2, hq h2]
    · by_cases h1 : g1.Typ = PointType
      · simp [h1, hp h1, hd1s]
      · simp [h1, h2]

/-- Witness for `own_payload_decides`: the one-ring polygon, with and without
a Point pair and a polygon list in its other slots. -/
theorem own_payload_decides_witness :
    closedPolygon.Validate =
        (⟨PolygonType, (F64.nan, F64.posInf), .mk [closedRing], .mk [.nil]⟩ :
          Geometry).Validate ∧
      closedPolygon.MarshalJSON =
        (⟨PolygonType, (F64.nan, F64.posInf), .mk [closedRing], .mk [.nil]⟩ :
          Geometry).MarshalJSON :=
  ⟨(own_payload_decides closedPolygon
      ⟨PolygonType, (F64.nan, F64.posInf), .mk [closedRing], .mk [.nil]⟩
      ⟨rfl, fun h => absurd h (by decide), fun _ => rfl, fun h => absurd h (by decide)⟩).1,
    (own_payload_decides closedPolygon
      ⟨PolygonType, (F64.nan, F64.posInf), .mk [closedRing], .mk [.nil]⟩
      ⟨rfl, fun h => absurd h (by decide), fun _ => rfl, fun h => absurd h (by decide)⟩).2.1⟩

/-- C29: `IsValidPoint` and `IsValidContour` give the same answer on records
with the same geometry; so `CreatePoint` on a Point record whose geometry is a
Polygon that passes `Validate` calls the store's `CreatePoint` with it and
returns what the store returns. -/
theorem point_and_contour_checks_agree {σ : Type} (s : GeometryServiceImpl σ) :
    (∀ (p : Point) (c : Contour), p.Data = c.Data → s.IsValidPoint p = s.IsValidContour c) ∧
      (∀ (p : Point) (w : World σ), p.Data.Typ = PolygonType → p.Data.Validate = .ok none →
        s.CreatePoint p w =
          .ok ((s.pointRepo.CreatePoint p w.store).1,
            ⟨(s.pointRepo.CreatePoint p w.store).2, w.calls ++ [.CreatePoint p]⟩)) := by
  constructor
  · intro p c h
    simp [GeometryServiceImpl.IsValidPoint, GeometryServiceImpl.IsValidContour, h]
  · intro p w _ hv
    simp [GeometryServiceImpl.CreatePoint, GeometryServiceImpl.IsValidPoint, hv, bind,
      Except.bind, pure, Except.pure, World.invoke]

/-- An instance of `point_and_contour_checks_agree`: a Point record carrying
the one-ring polygon is handed to the example store, which gives it identity 1. -/
theorem point_and_contour_checks_agree_witness :
    polygonPointRecord.Data.Typ = PolygonType ∧
      (toyService .nil).CreatePoint polygonPointRecord toyWorld =
        .ok ((⟨1, closedPolygon⟩, none), ⟨1, [.CreatePoint polygonPointRecord]⟩) :=
  ⟨rfl, (point_and_contour_checks_agree (toyService .nil)).2 polygonPointRecord toyWorld
    rfl rfl⟩

theorem appendRows_mem_kind (rows : List Contour) (c : Contour)
    (hc : c ∈ GeometryServiceImpl.appendRows [] rows) : c.Data.Typ = PolygonType := by
  rcases appendRows_mem rows c hc with h | ⟨_, h⟩
  · induction rows with
    | nil => simp [GeometryServiceImpl.appendRows] at hc
    | cons r rest ih =>
      rw [show r :: rest = [r] ++ rest from rfl, appendRows_append, List.mem_append] at hc
      rcases hc with hc | hc
      · rw [appendRows_single, appendPolygons_eq] at hc
        by_cases h1 : (r.Data.IsPolygon && r.Data.PolygonCoordinates.len != 0) = true
        · have hp : r.Data.Typ = PolygonType := by
            simp only [Bool.and_eq_true, Geometry.IsPolygon, beq_iff_eq] at h1
            exact h1.1
          by_cases h2 : r.Data.IsMultiPolygon = true
          · simp only [h1, h2, if_true, List.mem_append, List.mem_singleton,
              List.mem_map] at hc
            rcases hc with rfl | ⟨p, _, rfl⟩
            · exact hp
            · rfl
          · simp only [h1, h2, if_true, Bool.false_eq_true, if_false,
              List.mem_singleton] at hc
            subst hc
            exact hp
        · by_cases h2 : r.Data.IsMultiPolygon = true
          · simp only [h1, h2, if_true, Bool.false_eq_true, if_false, List.nil_append,
              List.mem_map] at hc
            obtain ⟨p, _, rfl⟩ := hc
            rfl
          · simp [h1, h2] at hc
      · exact ih hc
  · exact h

/-- C30: when both lookups and the query succeed, every entity of the output
has Kind Polygon; and for every raw row of Kind MultiPolygon, every constituent
polygon with an empty ring list is in the output as an entity of Kind Polygon
with that empty ring list: the test for an empty ring list is made on Polygon
rows only. -/
theorem GetContoursIntersectArea_empty_polygons {σ : Type} (s : GeometryServiceImpl σ)
    (a b : Nat) (w : World σ) (rows : Slice Contour)
    (ha : (s.contourRepo.GetContourByID a w.store).1.2 = none)
    (hb : (s.contourRepo.GetContourByID b
      (s.contourRepo.GetContourByID a w.store).2).1.2 = none)
    (hq : (s.contourRepo.GetContoursIntersectArea a b
      (s.contourRepo.GetContourByID b
        (s.contourRepo.GetContourByID a w.store).2).2).1 = (rows, none)) :
    (∀ c ∈ (s.GetContoursIntersectArea a b w).1.1.toList, c.Data.Typ = PolygonType) ∧
      (∀ row ∈ rows.toList, row.Data.Typ = MultiPolygon →
        ∀ p ∈ row.Data.MultiPolygonCoordinates.toList, p.len = 0 →
          (⟨0, ⟨"Polygon", zeroCoord, p, .nil⟩⟩ : Contour) ∈
            (s.GetContoursIntersectArea a b w).1.1.toList) := by
  rw [GetContoursIntersectArea_rows s a b w rows ha hb hq]
  refine ⟨fun c hc => appendRows_mem_kind _ c hc, ?_⟩
  intro row hrow hk p hp _
  obtain ⟨pre, post, hsplit⟩ := List.append_of_mem hrow
  show _ ∈ GeometryServiceImpl.appendRows [] rows.toList
  rw [hsplit, appendRows_append, show row :: post = [row] ++ post from rfl, appendRows_append,
    appendRows_multi row hk]
  simp only [List.mem_append, List.mem_map]
  exact Or.inr (Or.inl ⟨p, hp, rfl⟩)

/-- Witness for `GetContoursIntersectArea_empty_polygons`: the query returns
one MultiPolygon row whose only polygon has no ring, and the output is one
Polygon entity with an empty ring list. -/
theorem GetContoursIntersectArea_empty_polygons_witness :
    ((toyService (.mk [emptyPolygonRow])).GetContoursIntersectArea 1 2 toyWorld).1 =
        (.mk [⟨0, ⟨"Polygon", zeroCoord, .mk [], .nil⟩⟩], none) ∧
      (⟨0, ⟨"Polygon", zeroCoord, .mk [], .nil⟩⟩ : Contour) ∈
        ((toyService (.mk [emptyPolygonRow])).GetContoursIntersectArea 1 2
          toyWorld).1.1.toList :=
  ⟨rfl, (GetContoursIntersectArea_empty_polygons (toyService (.mk [emptyPolygonRow])) 1 2
    toyWorld (.mk [emptyPolygonRow]) rfl rfl rfl).2 emptyPolygonRow (by decide) rfl
    (.mk []) (by decide) rfl⟩

end GeoService
